import Mathlib

/-!
# Verification of the cal.com workflow-reminder subsystem

Shallow embedding of the workflow reminder scheduling code:
`packages/features/workflows/lib/types.ts`,
`.../reminders/EmailReminderService.ts`, `.../reminders/SmsReminderService.ts`,
`.../reminders/ReminderScheduler.ts`, `.../service/WorkflowService.ts`,
`.../templates/emailTemplates.ts` and `.../templates/smsTemplates.ts`.

Timestamps are modelled as integers in minutes (the code manipulates them
with minute/hour/day offsets through dayjs in one consistent reference
frame).  JavaScript strings become Lean `String`, `x | null | undefined`
becomes `Option`, and the JavaScript truthiness idioms used by the code
(`a || b`, `if (x)`, `!time`) are embedded by explicit helper functions.

The database (Prisma `workflowReminder` table) and the external task
scheduler (`tasker`) are external collaborators.  They are modelled as an
explicit state (`St`) threaded through the services, together with an
environment (`Env`) that fixes the process environment variables, the
`Intl` date/time formatters, the uuid generator of the database, and the
points at which a collaborator call throws an exception.  Exceptions are
modelled as `Except String` results; the state produced up to the point of
the throw is kept, as in the JavaScript runtime.
-/

/-! ## JavaScript truthiness helpers -/

/-- JavaScript truthiness of a nullable string: `null`, `undefined` and the
empty string are falsy. -/
def jsTruthyStr : Option String → Bool
  | none => false
  | some s => s != ""

/-- `a || d` for a nullable string `a` and a string default `d`. -/
def jsOrElse (a : Option String) (d : String) : String :=
  match a with
  | none => d
  | some s => if s = "" then d else s

/-- Normalize a nullable string to `none` exactly when it is JS-falsy
(models `x || null` and `x || undefined`). -/
def jsStrOpt : Option String → Option String
  | none => none
  | some s => if s = "" then none else some s

/-- JavaScript `!time` on a nullable number: true for `null`, `undefined`
and `0`. -/
def jsFalsyNum : Option Int → Bool
  | none => true
  | some t => t == 0

/-! ## Enumerations

The enums `WorkflowTriggerEvents`, `WorkflowActions` and `TimeUnit` are
imported by the sources from `@calcom/prisma/enums`, which is outside the
embedded sources.  Modelled from the spec: the spec fixes the five
supported triggers and five supported actions and states that further enum
members exist and are unsupported ("others explicitly unsupported").  One
representative further member of each enum is included so that the
"unsupported member" behaviour is expressible. -/

/-- Workflow trigger events.  `AFTER_HOSTS_CAL_VIDEO_NO_SHOW` stands for
the enum members outside the supported set. -/
inductive WorkflowTriggerEvents where
  | BEFORE_EVENT
  | AFTER_EVENT
  | NEW_EVENT
  | RESCHEDULE_EVENT
  | EVENT_CANCELLED
  | AFTER_HOSTS_CAL_VIDEO_NO_SHOW
  deriving DecidableEq, Repr

/-- Workflow actions.  `WHATSAPP_ATTENDEE` stands for the enum members
outside the supported set. -/
inductive WorkflowActions where
  | EMAIL_HOST
  | EMAIL_ATTENDEE
  | EMAIL_ADDRESS
  | SMS_ATTENDEE
  | SMS_NUMBER
  | WHATSAPP_ATTENDEE
  deriving DecidableEq, Repr

/-- Time units for relative-offset triggers. -/
inductive TimeUnit where
  | MINUTE
  | HOUR
  | DAY
  deriving DecidableEq, Repr

/-- Delivery method of a persisted reminder (`WorkflowMethods`). -/
inductive WorkflowMethods where
  | EMAIL
  | SMS
  deriving DecidableEq, Repr

/-! ## Data model (`lib/types.ts`) -/

/-- `AttendeeInfo` (fields consumed by the embedded functions; the
locale is `language.locale` flattened). -/
structure AttendeeInfo where
  name : String
  email : String
  phoneNumber : Option String
  timeZone : String
  locale : String
  deriving DecidableEq, Repr

/-- `OrganizerInfo` (fields consumed by the embedded functions). -/
structure OrganizerInfo where
  name : String
  email : String
  timeZone : String
  locale : String
  deriving DecidableEq, Repr

/-- `metadata` of an `ExtendedCalendarEvent`. -/
structure EventMetadata where
  videoCallUrl : Option String
  deriving DecidableEq, Repr

/-- `ExtendedCalendarEvent` — immutable booking snapshot.  `organizer` is
an `Option` because every access in the embedded code is through the
optional-chaining guard `organizer?.`.  Fields that no embedded function
reads (`eventType`, `responses`, reasons) are omitted.  `startTime` and
`endTime` are instants in minutes. -/
structure ExtendedCalendarEvent where
  uid : Option String
  title : String
  startTime : Int
  endTime : Int
  organizer : Option OrganizerInfo
  attendees : List AttendeeInfo
  location : Option String
  additionalNotes : Option String
  metadata : Option EventMetadata
  bookerUrl : String
  deriving DecidableEq, Repr

/-- `WorkflowStep`. -/
structure WorkflowStep where
  action : WorkflowActions
  sendTo : Option String
  template : String
  reminderBody : Option String
  emailSubject : Option String
  id : Nat
  sender : Option String
  includeCalendarEvent : Bool
  numberVerificationPending : Bool
  numberRequired : Option Bool
  deriving DecidableEq, Repr

/-- `Workflow`. -/
structure Workflow where
  id : Nat
  name : String
  trigger : WorkflowTriggerEvents
  time : Option Int
  timeUnit : Option TimeUnit
  userId : Option Nat
  teamId : Option Nat
  steps : List WorkflowStep
  deriving DecidableEq, Repr

/-- `ScheduleResult` — outcome contract of every dispatch operation. -/
structure ScheduleResult where
  success : Bool
  reminderId : Option Nat
  error : Option String
  deriving DecidableEq, Repr

/-! ## Trigger/action classifiers (`lib/types.ts`) -/

/-- `SUPPORTED_TRIGGERS`. -/
def SUPPORTED_TRIGGERS : List WorkflowTriggerEvents :=
  [.BEFORE_EVENT, .AFTER_EVENT, .NEW_EVENT, .RESCHEDULE_EVENT, .EVENT_CANCELLED]

/-- `SUPPORTED_ACTIONS`. -/
def SUPPORTED_ACTIONS : List WorkflowActions :=
  [.EMAIL_HOST, .EMAIL_ATTENDEE, .EMAIL_ADDRESS, .SMS_ATTENDEE, .SMS_NUMBER]

/-- `isSupportedTrigger`. -/
def isSupportedTrigger (trigger : WorkflowTriggerEvents) : Bool :=
  SUPPORTED_TRIGGERS.contains trigger

/-- `isSupportedAction`. -/
def isSupportedAction (action : WorkflowActions) : Bool :=
  SUPPORTED_ACTIONS.contains action

/-- `isEmailAction`. -/
def isEmailAction (action : WorkflowActions) : Bool :=
  action = .EMAIL_HOST || action = .EMAIL_ATTENDEE || action = .EMAIL_ADDRESS

/-- `isSmsAction`. -/
def isSmsAction (action : WorkflowActions) : Bool :=
  action = .SMS_ATTENDEE || action = .SMS_NUMBER

/-- `isAttendeeAction`. -/
def isAttendeeAction (action : WorkflowActions) : Bool :=
  action = .EMAIL_ATTENDEE || action = .SMS_ATTENDEE

/-- Minutes in one dayjs manipulation unit (`timeUnit.toLowerCase()` fed
to dayjs `subtract`/`add`, in a consistent reference frame). -/
def TimeUnit.minutes : TimeUnit → Int
  | .MINUTE => 1
  | .HOUR => 60
  | .DAY => 1440

/-! ## Scheduled-date calculators

`EmailReminderService.calculateScheduledDate` and
`SmsReminderService.calculateScheduledDate` are textually identical private
static methods; they are embedded separately, each faithful to its class.
`now` is the wall clock (`new Date()`) injected as a parameter. -/

namespace EmailReminderService

/-- `EmailReminderService.isImmediateTrigger`. -/
def isImmediateTrigger (trigger : WorkflowTriggerEvents) : Bool :=
  [WorkflowTriggerEvents.NEW_EVENT, WorkflowTriggerEvents.RESCHEDULE_EVENT,
    WorkflowTriggerEvents.EVENT_CANCELLED].contains trigger

/-- `EmailReminderService.calculateScheduledDate`.  The guard
`if (!time || !timeUnit) return null` uses JS truthiness: it also fires
when `time` is `0`. -/
def calculateScheduledDate (now : Int) (workflow : Workflow)
    (calendarEvent : ExtendedCalendarEvent) : Option Int :=
  if isImmediateTrigger workflow.trigger then
    some now
  else if workflow.trigger = .BEFORE_EVENT then
    if jsFalsyNum workflow.time || workflow.timeUnit.isNone then none
    else
      match workflow.time, workflow.timeUnit with
      | some time, some timeUnit => some (calendarEvent.startTime - time * timeUnit.minutes)
      | _, _ => none
  else if workflow.trigger = .AFTER_EVENT then
    if jsFalsyNum workflow.time || workflow.timeUnit.isNone then none
    else
      match workflow.time, workflow.timeUnit with
      | some time, some timeUnit => some (calendarEvent.endTime + time * timeUnit.minutes)
      | _, _ => none
  else
    none

end EmailReminderService

namespace SmsReminderService

/-- `SmsReminderService.isImmediateTrigger`. -/
def isImmediateTrigger (trigger : WorkflowTriggerEvents) : Bool :=
  [WorkflowTriggerEvents.NEW_EVENT, WorkflowTriggerEvents.RESCHEDULE_EVENT,
    WorkflowTriggerEvents.EVENT_CANCELLED].contains trigger

/-- `SmsReminderService.calculateScheduledDate` (textually identical to the
email one). -/
def calculateScheduledDate (now : Int) (workflow : Workflow)
    (calendarEvent : ExtendedCalendarEvent) : Option Int :=
  if isImmediateTrigger workflow.trigger then
    some now
  else if workflow.trigger = .BEFORE_EVENT then
    if jsFalsyNum workflow.time || workflow.timeUnit.isNone then none
    else
      match workflow.time, workflow.timeUnit with
      | some time, some timeUnit => some (calendarEvent.startTime - time * timeUnit.minutes)
      | _, _ => none
  else if workflow.trigger = .AFTER_EVENT then
    if jsFalsyNum workflow.time || workflow.timeUnit.isNone then none
    else
      match workflow.time, workflow.timeUnit with
      | some time, some timeUnit => some (calendarEvent.endTime + time * timeUnit.minutes)
      | _, _ => none
  else
    none

end SmsReminderService

/-! ## Specification-side definition for the scheduled date (claim C1)

Written from the (amended) spec wording, to be compared with the two
source-embedded calculators. -/

/-- The immediate triggers named by the spec. -/
def isImmediateTriggerSpec (trigger : WorkflowTriggerEvents) : Bool :=
  trigger = .NEW_EVENT || trigger = .RESCHEDULE_EVENT || trigger = .EVENT_CANCELLED

/-- Scheduled date as the amended spec words it: immediate triggers yield
the current wall-clock time; `BEFORE_EVENT` yields event start minus the
offset and `AFTER_EVENT` event end plus the offset, yielding null when
`time` or `timeUnit` is absent or `time` is zero; any other trigger yields
null. -/
def scheduledDateSpec (now : Int) (workflow : Workflow)
    (calendarEvent : ExtendedCalendarEvent) : Option Int :=
  if isImmediateTriggerSpec workflow.trigger then some now
  else
    match workflow.trigger, workflow.time, workflow.timeUnit with
    | .BEFORE_EVENT, some t, some u =>
        if t = 0 then none else some (calendarEvent.startTime - t * u.minutes)
    | .AFTER_EVENT, some t, some u =>
        if t = 0 then none else some (calendarEvent.endTime + t * u.minutes)
    | _, _, _ => none

/-! ## String replacement (templates)

`replaceTemplateVariables` and `replaceSmsVariables` replace every
occurrence of each variable, in the insertion order of the `replacements`
record, via `String.prototype.replace` with a global regex whose pattern is
the escaped literal variable and whose replacement argument is a plain
string.  The JS global replace scans left to right, replaces
non-overlapping matches, does not rescan the inserted replacement text,
and performs the ECMAScript dollar substitution (`GetSubstitution`) on the
string replacement argument: `$$` inserts `$`, `$&` the matched text,
`$` + backquote the part of the subject before the match, `$` + quote the
part after it; any other `$` sequence stays literal (the regex here has no
capture groups, so `$n` and `$<name>` are literal text).  The scan is
embedded on `List Char` with an explicit fuel (the fuel is the length of
the scanned string, which suffices: every step consumes at least one
character). -/

/-- One fuel-indexed step of the global replace scan with a plain literal
insertion.  This is the proof-side canonical form of the scan; the
embedding `jsReplaceAll` below additionally performs the dollar
substitution of the replacement string and coincides with this scan
exactly when the replacement contains no `$` character
(`replaceFuelD_dollarFree`). -/
def replaceFuel (pat rep : List Char) : Nat → List Char → List Char
  | 0, s => s
  | _ + 1, [] => []
  | fuel + 1, c :: cs =>
    if pat ≠ [] ∧ pat.isPrefixOf (c :: cs) then
      rep ++ replaceFuel pat rep fuel ((c :: cs).drop pat.length)
    else
      c :: replaceFuel pat rep fuel cs

/-- Fuel-indexed core of the ECMAScript `GetSubstitution` scan (the fuel,
the length of the replacement string, bounds the scan; every step consumes
at least one character). -/
def dollarExpandFuel (matched before after : List Char) : Nat → List Char → List Char
  | 0, s => s
  | _ + 1, [] => []
  | fuel + 1, c :: rest =>
    if c = '$' then
      match rest with
      | [] => [c]
      | d :: rest2 =>
        if d = '$' then d :: dollarExpandFuel matched before after fuel rest2
        else if d = '&' then matched ++ dollarExpandFuel matched before after fuel rest2
        else if d = Char.ofNat 96 then
          before ++ dollarExpandFuel matched before after fuel rest2
        else if d = Char.ofNat 39 then
          after ++ dollarExpandFuel matched before after fuel rest2
        else c :: dollarExpandFuel matched before after fuel rest
    else c :: dollarExpandFuel matched before after fuel rest

/-- The ECMAScript `GetSubstitution` of a string replacement argument for
a regex without capture groups: `matched` is the matched text, `before`
the part of the subject string preceding the match and `after` the part
following it.  `$$` inserts `$`, `$&` the matched text, `$` + backquote
`before`, `$` + quote `after`; any other `$` sequence stays literal. -/
def dollarExpand (matched before after rep : List Char) : List Char :=
  dollarExpandFuel matched before after rep.length rep

/-- The global replace scan with dollar substitution: `before` accumulates
the part of the original subject already consumed, so that at each match
of the literal pattern the replacement can be dollar-expanded against the
matched text, the subject prefix before the match and the subject suffix
after it (all relative to the original subject, as in ECMAScript). -/
def replaceFuelD (pat rep : List Char) : Nat → List Char → List Char → List Char
  | 0, _, s => s
  | _ + 1, _, [] => []
  | fuel + 1, before, c :: cs =>
    if pat ≠ [] ∧ pat.isPrefixOf (c :: cs) then
      dollarExpand pat before ((c :: cs).drop pat.length) rep ++
        replaceFuelD pat rep fuel (before ++ pat) ((c :: cs).drop pat.length)
    else
      c :: replaceFuelD pat rep fuel (before ++ [c]) cs

/-- Global replacement on strings, the embedding of
`s.replace(new RegExp(escapedPat, "g"), rep)` with a string replacement
argument — including its ECMAScript dollar substitution. -/
def jsReplaceAll (s pat rep : String) : String :=
  ⟨replaceFuelD pat.data rep.data s.data.length [] s.data⟩

/-- Apply an ordered association list of (variable, value) replacements,
the embedding of the `for (const [variable, value] of
Object.entries(replacements))` loop. -/
def applyReplacements (template : String) (replacements : List (String × String)) : String :=
  replacements.foldl (fun acc pr => jsReplaceAll acc pr.1 pr.2) template

/-! ## Email templates (`templates/emailTemplates.ts`) -/

/-- The `Intl.DateTimeFormat` collaborators: a date formatter and a time
formatter, each taking the locale and the instant.  `Intl` is external to
the sources; the formatters are injected. -/
structure Fmt where
  fmtDate : String → Int → String
  fmtTime : String → Int → String

/-- Options of `replaceTemplateVariables`. -/
structure TemplateOptions where
  bookerUrl : Option String
  locale : Option String
  deriving DecidableEq, Repr

/-- `getDefaultReminderSubject`. -/
def getDefaultReminderSubject (locale : String) : String :=
  if locale = "en" then "Reminder: {EVENT_TITLE} on {EVENT_DATE}"
  else if locale = "fr" then "Rappel: {EVENT_TITLE} le {EVENT_DATE}"
  else if locale = "es" then "Recordatorio: {EVENT_TITLE} el {EVENT_DATE}"
  else if locale = "de" then "Erinnerung: {EVENT_TITLE} am {EVENT_DATE}"
  else "Reminder: {EVENT_TITLE} on {EVENT_DATE}"

/-- `getDefaultReminderBody` (English and French variants as in the
source; unknown locale falls back to English). -/
def getDefaultReminderBody (locale : String) : String :=
  if locale = "en" then
    "Hi {ATTENDEE_NAME},\n\nThis is a reminder for your upcoming event:\n\n**{EVENT_TITLE}**\nDate: {EVENT_DATE}\nTime: {EVENT_TIME} - {EVENT_END_TIME} ({EVENT_TIMEZONE})\nLocation: {LOCATION}\n\n{ADDITIONAL_NOTES}\n\nNeed to make changes?\n- Reschedule: {RESCHEDULE_URL}\n- Cancel: {CANCEL_URL}\n\nLooking forward to seeing you!\n\nBest regards,\n{ORGANIZER_NAME}"
  else if locale = "fr" then
    "Bonjour {ATTENDEE_NAME},\n\nCeci est un rappel pour votre prochain événement:\n\n**{EVENT_TITLE}**\nDate: {EVENT_DATE}\nHeure: {EVENT_TIME} - {EVENT_END_TIME} ({EVENT_TIMEZONE})\nLieu: {LOCATION}\n\n{ADDITIONAL_NOTES}\n\nBesoin de modifier?\n- Reporter: {RESCHEDULE_URL}\n- Annuler: {CANCEL_URL}\n\nAu plaisir de vous voir!\n\nCordialement,\n{ORGANIZER_NAME}"
  else
    "Hi {ATTENDEE_NAME},\n\nThis is a reminder for your upcoming event:\n\n**{EVENT_TITLE}**\nDate: {EVENT_DATE}\nTime: {EVENT_TIME} - {EVENT_END_TIME} ({EVENT_TIMEZONE})\nLocation: {LOCATION}\n\n{ADDITIONAL_NOTES}\n\nNeed to make changes?\n- Reschedule: {RESCHEDULE_URL}\n- Cancel: {CANCEL_URL}\n\nLooking forward to seeing you!\n\nBest regards,\n{ORGANIZER_NAME}"

/-- `getNewBookingSubject`. -/
def getNewBookingSubject (locale : String) : String :=
  if locale = "en" then "New booking: {EVENT_TITLE}"
  else if locale = "fr" then "Nouvelle réservation: {EVENT_TITLE}"
  else "New booking: {EVENT_TITLE}"

/-- `getNewBookingHostBody`. -/
def getNewBookingHostBody (locale : String) : String :=
  if locale = "en" then
    "You have a new booking!\n\n**{EVENT_TITLE}**\nWith: {ATTENDEE_NAME}\nDate: {EVENT_DATE}\nTime: {EVENT_TIME} - {EVENT_END_TIME} ({EVENT_TIMEZONE})\nLocation: {LOCATION}\n\n{ADDITIONAL_NOTES}"
  else
    "You have a new booking!\n\n**{EVENT_TITLE}**\nWith: {ATTENDEE_NAME}\nDate: {EVENT_DATE}\nTime: {EVENT_TIME} - {EVENT_END_TIME} ({EVENT_TIMEZONE})\nLocation: {LOCATION}\n\n{ADDITIONAL_NOTES}"

/-- `getCancellationSubject`. -/
def getCancellationSubject (locale : String) : String :=
  if locale = "en" then "Event Cancelled: {EVENT_TITLE}"
  else if locale = "fr" then "Événement annulé: {EVENT_TITLE}"
  else "Event Cancelled: {EVENT_TITLE}"

/-- `getCancellationBody`. -/
def getCancellationBody (locale : String) : String :=
  if locale = "en" then
    "Hi {ATTENDEE_NAME},\n\nYour event has been cancelled:\n\n**{EVENT_TITLE}**\nOriginal Date: {EVENT_DATE}\nOriginal Time: {EVENT_TIME} ({EVENT_TIMEZONE})\n\nIf you\x27d like to reschedule, please book a new time.\n\nBest regards,\n{ORGANIZER_NAME}"
  else
    "Hi {ATTENDEE_NAME},\n\nYour event has been cancelled:\n\n**{EVENT_TITLE}**\nOriginal Date: {EVENT_DATE}\nOriginal Time: {EVENT_TIME} ({EVENT_TIMEZONE})\n\nIf you\x27d like to reschedule, please book a new time.\n\nBest regards,\n{ORGANIZER_NAME}"

/-- `getRescheduleSubject`. -/
def getRescheduleSubject (locale : String) : String :=
  if locale = "en" then "Event Rescheduled: {EVENT_TITLE}"
  else if locale = "fr" then "Événement reporté: {EVENT_TITLE}"
  else "Event Rescheduled: {EVENT_TITLE}"

/-- `getRescheduleBody`. -/
def getRescheduleBody (locale : String) : String :=
  if locale = "en" then
    "Hi {ATTENDEE_NAME},\n\nYour event has been rescheduled:\n\n**{EVENT_TITLE}**\nNew Date: {EVENT_DATE}\nNew Time: {EVENT_TIME} - {EVENT_END_TIME} ({EVENT_TIMEZONE})\nLocation: {LOCATION}\n\nNeed to make changes?\n- Reschedule: {RESCHEDULE_URL}\n- Cancel: {CANCEL_URL}\n\nBest regards,\n{ORGANIZER_NAME}"
  else
    "Hi {ATTENDEE_NAME},\n\nYour event has been rescheduled:\n\n**{EVENT_TITLE}**\nNew Date: {EVENT_DATE}\nNew Time: {EVENT_TIME} - {EVENT_END_TIME} ({EVENT_TIMEZONE})\nLocation: {LOCATION}\n\nNeed to make changes?\n- Reschedule: {RESCHEDULE_URL}\n- Cancel: {CANCEL_URL}\n\nBest regards,\n{ORGANIZER_NAME}"

/-- The ordered `replacements` record of `replaceTemplateVariables`:
insertion order of the object literal in the source. -/
def emailReplacements (fmt : Fmt) (calendarEvent : ExtendedCalendarEvent)
    (options : TemplateOptions) : List (String × String) :=
  let attendee := calendarEvent.attendees.head?
  let locale := jsOrElse options.locale (jsOrElse (attendee.map (fun a => a.locale)) "en")
  let bookerUrl := jsOrElse options.bookerUrl calendarEvent.bookerUrl
  [("{ATTENDEE_NAME}", jsOrElse (attendee.map (fun a => a.name)) "Guest"),
   ("{ORGANIZER_NAME}", jsOrElse (calendarEvent.organizer.map (fun o => o.name)) "Organizer"),
   ("{EVENT_TITLE}", jsOrElse (some calendarEvent.title) "Event"),
   ("{EVENT_DATE}", fmt.fmtDate locale calendarEvent.startTime),
   ("{EVENT_TIME}", fmt.fmtTime locale calendarEvent.startTime),
   ("{EVENT_END_TIME}", fmt.fmtTime locale calendarEvent.endTime),
   ("{EVENT_TIMEZONE}",
     jsOrElse (attendee.map (fun a => a.timeZone))
       (jsOrElse (calendarEvent.organizer.map (fun o => o.timeZone)) "UTC")),
   ("{LOCATION}",
     jsOrElse calendarEvent.location
       (jsOrElse (calendarEvent.metadata.bind (fun m => m.videoCallUrl)) "TBD")),
   ("{ADDITIONAL_NOTES}", jsOrElse calendarEvent.additionalNotes ""),
   ("{MEETING_URL}", jsOrElse (calendarEvent.metadata.bind (fun m => m.videoCallUrl)) ""),
   ("{CANCEL_URL}",
     match jsStrOpt calendarEvent.uid with
     | some u => bookerUrl ++ "/booking/" ++ u ++ "?cancel=true"
     | none => ""),
   ("{RESCHEDULE_URL}",
     match jsStrOpt calendarEvent.uid with
     | some u => bookerUrl ++ "/reschedule/" ++ u
     | none => "")]

/-- `replaceTemplateVariables`. -/
def replaceTemplateVariables (fmt : Fmt) (template : String)
    (calendarEvent : ExtendedCalendarEvent) (options : TemplateOptions) : String :=
  applyReplacements template (emailReplacements fmt calendarEvent options)

/-- `getTemplateForTrigger` of `emailTemplates.ts`. -/
def getTemplateForTrigger (trigger : WorkflowTriggerEvents) (wantSubject : Bool)
    (locale : String) : String :=
  match trigger with
  | .BEFORE_EVENT | .AFTER_EVENT =>
      if wantSubject then getDefaultReminderSubject locale else getDefaultReminderBody locale
  | .NEW_EVENT =>
      if wantSubject then getNewBookingSubject locale else getNewBookingHostBody locale
  | .EVENT_CANCELLED =>
      if wantSubject then getCancellationSubject locale else getCancellationBody locale
  | .RESCHEDULE_EVENT =>
      if wantSubject then getRescheduleSubject locale else getRescheduleBody locale
  | _ =>
      if wantSubject then getDefaultReminderSubject locale else getDefaultReminderBody locale

/-! ## SMS templates (`templates/smsTemplates.ts`) -/

/-- `getDefaultSmsReminder`. -/
def getDefaultSmsReminder (locale : String) : String :=
  if locale = "en" then "Reminder: {EVENT_TITLE} on {EVENT_DATE} at {EVENT_TIME}. Location: {LOCATION}"
  else if locale = "fr" then "Rappel: {EVENT_TITLE} le {EVENT_DATE} à {EVENT_TIME}. Lieu: {LOCATION}"
  else if locale = "es" then "Recordatorio: {EVENT_TITLE} el {EVENT_DATE} a las {EVENT_TIME}. Ubicación: {LOCATION}"
  else "Reminder: {EVENT_TITLE} on {EVENT_DATE} at {EVENT_TIME}. Location: {LOCATION}"

/-- `getNewBookingSms`. -/
def getNewBookingSms (locale : String) : String :=
  if locale = "en" then "New booking: {EVENT_TITLE} with {ATTENDEE_NAME} on {EVENT_DATE} at {EVENT_TIME}"
  else if locale = "fr" then "Nouvelle réservation: {EVENT_TITLE} avec {ATTENDEE_NAME} le {EVENT_DATE} à {EVENT_TIME}"
  else "New booking: {EVENT_TITLE} with {ATTENDEE_NAME} on {EVENT_DATE} at {EVENT_TIME}"

/-- `getCancellationSms`. -/
def getCancellationSms (locale : String) : String :=
  if locale = "en" then "Cancelled: {EVENT_TITLE} on {EVENT_DATE} has been cancelled."
  else if locale = "fr" then "Annulé: {EVENT_TITLE} le {EVENT_DATE} a été annulé."
  else "Cancelled: {EVENT_TITLE} on {EVENT_DATE} has been cancelled."

/-- `getRescheduleSms`. -/
def getRescheduleSms (locale : String) : String :=
  if locale = "en" then "Rescheduled: {EVENT_TITLE} is now on {EVENT_DATE} at {EVENT_TIME}"
  else if locale = "fr" then "Reporté: {EVENT_TITLE} est maintenant le {EVENT_DATE} à {EVENT_TIME}"
  else "Rescheduled: {EVENT_TITLE} is now on {EVENT_DATE} at {EVENT_TIME}"

/-- The ordered `replacements` record of `replaceSmsVariables`. -/
def smsReplacements (fmt : Fmt) (calendarEvent : ExtendedCalendarEvent)
    (locale : Option String) : List (String × String) :=
  let attendee := calendarEvent.attendees.head?
  let effectiveLocale := jsOrElse locale (jsOrElse (attendee.map (fun a => a.locale)) "en")
  [("{ATTENDEE_NAME}", jsOrElse (attendee.map (fun a => a.name)) "Guest"),
   ("{ORGANIZER_NAME}", jsOrElse (calendarEvent.organizer.map (fun o => o.name)) "Organizer"),
   ("{EVENT_TITLE}", jsOrElse (some calendarEvent.title) "Event"),
   ("{EVENT_DATE}", fmt.fmtDate effectiveLocale calendarEvent.startTime),
   ("{EVENT_TIME}", fmt.fmtTime effectiveLocale calendarEvent.startTime),
   ("{LOCATION}",
     jsOrElse calendarEvent.location
       (jsOrElse (calendarEvent.metadata.bind (fun m => m.videoCallUrl)) "TBD"))]

/-- `replaceSmsVariables`. -/
def replaceSmsVariables (fmt : Fmt) (template : String)
    (calendarEvent : ExtendedCalendarEvent) (locale : Option String) : String :=
  applyReplacements template (smsReplacements fmt calendarEvent locale)

/-- `getSmsTemplateForTrigger`. -/
def getSmsTemplateForTrigger (trigger : WorkflowTriggerEvents) (locale : String) : String :=
  match trigger with
  | .BEFORE_EVENT | .AFTER_EVENT => getDefaultSmsReminder locale
  | .NEW_EVENT => getNewBookingSms locale
  | .EVENT_CANCELLED => getCancellationSms locale
  | .RESCHEDULE_EVENT => getRescheduleSms locale
  | _ => getDefaultSmsReminder locale

/-! ## Collaborator state and environment -/

/-- A persisted `WorkflowReminder` row.  `uuid` is the optional correlation
id generated by the database; `cancelled` defaults to `false` on create. -/
structure ReminderRecord where
  id : Nat
  bookingUid : Option String
  workflowStepId : Option Nat
  method : WorkflowMethods
  scheduledDate : Int
  scheduled : Bool
  cancelled : Bool
  uuid : Option String
  seatReferenceId : Option String
  deriving DecidableEq, Repr

/-- A task handed to the external task scheduler by `tasker.create`. -/
structure SchedulerTask where
  taskType : String
  bookingUid : String
  workflowReminderId : Nat
  scheduledAt : Int
  referenceUid : Option String
  deriving DecidableEq, Repr

/-- Observable state of the collaborators: the `workflowReminder` table,
the tasks created via `tasker.create`, and the cancellation requests
issued via `tasker.cancel`. -/
structure St where
  records : List ReminderRecord
  nextId : Nat
  tasks : List SchedulerTask
  cancelRequests : List String
  deriving Repr

/-- Environment: process environment variables, `Intl` formatters, the
database uuid generator, and the exception oracles saying at which
collaborator calls the runtime throws (`none` = the call succeeds). -/
structure Env where
  procEnv : String → Option String
  fmt : Fmt
  uuidGen : Nat → Option String
  createExn : Nat → Option String
  taskCreateExn : Nat → Option String
  taskCancelExn : String → Option String
  updateExn : Nat → Option String

/-- Data handed to `prisma.workflowReminder.create`. -/
structure ReminderCreateData where
  bookingUid : Option String
  workflowStepId : Option Nat
  method : WorkflowMethods
  scheduledDate : Int
  scheduled : Bool
  seatReferenceId : Option String
  deriving DecidableEq, Repr

/-- The row `prisma.workflowReminder.create` would insert from `d` in
state `s`. -/
def newRecord (env : Env) (d : ReminderCreateData) (s : St) : ReminderRecord :=
  { id := s.nextId
    bookingUid := d.bookingUid
    workflowStepId := d.workflowStepId
    method := d.method
    scheduledDate := d.scheduledDate
    scheduled := d.scheduled
    cancelled := false
    uuid := env.uuidGen s.nextId
    seatReferenceId := d.seatReferenceId }

/-- `prisma.workflowReminder.create`. -/
def dbCreate (env : Env) (d : ReminderCreateData) (s : St) :
    Except String ReminderRecord × St :=
  match env.createExn s.nextId with
  | some e => (.error e, s)
  | none =>
      (.ok (newRecord env d s),
        { s with records := s.records ++ [newRecord env d s], nextId := s.nextId + 1 })

/-- `prisma.workflowReminder.findMany` with the cancellation filter
`{ bookingUid, method, cancelled: false, scheduled: true }`. -/
def dbFindActive (bookingUid : String) (method : WorkflowMethods) (s : St) :
    List ReminderRecord :=
  s.records.filter (fun r =>
    r.bookingUid = some bookingUid && r.method = method &&
      r.cancelled = false && r.scheduled = true)

/-- `prisma.workflowReminder.update` setting `cancelled: true` on the row
with the given id. -/
def dbMarkCancelled (env : Env) (id : Nat) (s : St) : Except String Unit × St :=
  match env.updateExn id with
  | some e => (.error e, s)
  | none =>
      (.ok (),
        { s with records :=
            s.records.map (fun r => if r.id = id then { r with cancelled := true } else r) })

/-- `tasker.create(taskType, payload, { scheduledAt, referenceUid })`. -/
def taskerCreate (env : Env) (taskType : String) (bookingUid : String)
    (workflowReminderId : Nat) (scheduledAt : Int) (referenceUid : Option String)
    (s : St) : Except String Unit × St :=
  match env.taskCreateExn workflowReminderId with
  | some e => (.error e, s)
  | none =>
      (.ok (),
        { s with tasks := s.tasks ++
            [{ taskType := taskType, bookingUid := bookingUid,
               workflowReminderId := workflowReminderId,
               scheduledAt := scheduledAt, referenceUid := referenceUid }] })

/-- `tasker.cancel(referenceUid)`. -/
def taskerCancel (env : Env) (referenceUid : String) (s : St) :
    Except String Unit × St :=
  match env.taskCancelExn referenceUid with
  | some e => (.error e, s)
  | none => (.ok (), { s with cancelRequests := s.cancelRequests ++ [referenceUid] })

/-- `String(error)` on a caught exception; the modelled exceptions are
already strings. -/
def jsStringOfException (e : String) : String := e

/-- The `try { body } catch (error) { return { success: false, error:
String(error) } }` wrapper shared by both `scheduleReminder` methods. -/
def catchScheduleExceptions (body : Except String ScheduleResult × St) :
    ScheduleResult × St :=
  match body with
  | (.ok r, s) => (r, s)
  | (.error e, s) =>
      ({ success := false, reminderId := none, error := some (jsStringOfException e) }, s)

/-- `isSmsConfigured` of `SmsReminderService.ts`:
`!!(process.env.TWILIO_SID && process.env.TWILIO_TOKEN &&
process.env.TWILIO_MESSAGING_SID)`, read from the environment on every
call. -/
def isSmsConfigured (env : Env) : Bool :=
  jsTruthyStr (env.procEnv "TWILIO_SID") && jsTruthyStr (env.procEnv "TWILIO_TOKEN") &&
    jsTruthyStr (env.procEnv "TWILIO_MESSAGING_SID")

/-! ## EmailReminderService (`reminders/EmailReminderService.ts`) -/

namespace EmailReminderService

/-- Options of `EmailReminderService.scheduleReminder`. -/
structure Options where
  emailAttendeeSendToOverride : Option String
  seatReferenceUid : Option String
  deriving DecidableEq, Repr

/-- `EmailReminderService.getRecipient`. -/
def getRecipient (step : WorkflowStep) (calendarEvent : ExtendedCalendarEvent)
    (emailAttendeeSendToOverride : Option String) : Option String :=
  match step.action with
  | .EMAIL_HOST => jsStrOpt (calendarEvent.organizer.map (fun o => o.email))
  | .EMAIL_ATTENDEE =>
      if jsTruthyStr emailAttendeeSendToOverride then emailAttendeeSendToOverride
      else jsStrOpt ((calendarEvent.attendees.head?).map (fun a => a.email))
  | .EMAIL_ADDRESS => jsStrOpt step.sendTo
  | _ => none

/-- Body of the `try` block of `EmailReminderService.sendEmailNow`. -/
def sendEmailNowBody (env : Env) (now : Int) (_workflow : Workflow)
    (step : WorkflowStep) (calendarEvent : ExtendedCalendarEvent) (s : St) :
    Except String ScheduleResult × St :=
  match dbCreate env
      { bookingUid := calendarEvent.uid
        workflowStepId := some step.id
        method := .EMAIL
        scheduledDate := now
        scheduled := true
        seatReferenceId := none } s with
  | (.error e, s1) => (.error e, s1)
  | (.ok workflowReminder, s1) =>
      match taskerCreate env "sendWorkflowEmails" (jsOrElse calendarEvent.uid "")
          workflowReminder.id now (jsStrOpt workflowReminder.uuid) s1 with
      | (.error e, s2) => (.error e, s2)
      | (.ok _, s2) =>
          (.ok { success := true, reminderId := some workflowReminder.id, error := none }, s2)

/-- `EmailReminderService.sendEmailNow` (its own try/catch). -/
def sendEmailNow (env : Env) (now : Int) (_workflow : Workflow)
    (step : WorkflowStep) (calendarEvent : ExtendedCalendarEvent) (s : St) :
    Except String ScheduleResult × St :=
  match sendEmailNowBody env now _workflow step calendarEvent s with
  | (.ok r, s1) => (.ok r, s1)
  | (.error e, s1) =>
      (.ok { success := false, reminderId := none,
             error := some (jsStringOfException e) }, s1)

/-- Body of the `try` block of `EmailReminderService.scheduleReminder`. -/
def scheduleReminderBody (env : Env) (now : Int) (workflow : Workflow)
    (step : WorkflowStep) (calendarEvent : ExtendedCalendarEvent)
    (options : Options) (s : St) : Except String ScheduleResult × St :=
  if !isEmailAction step.action then
    (.ok { success := false, reminderId := none, error := some "Not an email action" }, s)
  else
    match getRecipient step calendarEvent options.emailAttendeeSendToOverride with
    | none =>
        (.ok { success := false, reminderId := none, error := some "No recipient" }, s)
    | some _to =>
      let locale := jsOrElse ((calendarEvent.attendees.head?).map (fun a => a.locale)) "en"
      let _subject :=
        match step.emailSubject with
        | some subj =>
            replaceTemplateVariables env.fmt subj calendarEvent
              { bookerUrl := none, locale := some locale }
        | none =>
            replaceTemplateVariables env.fmt
              (getTemplateForTrigger workflow.trigger true locale) calendarEvent
              { bookerUrl := none, locale := some locale }
      let _body :=
        match step.reminderBody with
        | some body =>
            replaceTemplateVariables env.fmt body calendarEvent
              { bookerUrl := none, locale := some locale }
        | none =>
            replaceTemplateVariables env.fmt
              (getTemplateForTrigger workflow.trigger false locale) calendarEvent
              { bookerUrl := none, locale := some locale }
      match calculateScheduledDate now workflow calendarEvent with
      | none =>
          (.ok { success := false, reminderId := none,
                 error := some "Could not calculate scheduled date" }, s)
      | some scheduledDate =>
        if isImmediateTrigger workflow.trigger then
          sendEmailNow env now workflow step calendarEvent s
        else
          match dbCreate env
              { bookingUid := some (jsOrElse calendarEvent.uid "")
                workflowStepId := some step.id
                method := .EMAIL
                scheduledDate := scheduledDate
                scheduled := true
                seatReferenceId := options.seatReferenceUid } s with
          | (.error e, s1) => (.error e, s1)
          | (.ok workflowReminder, s1) =>
              match taskerCreate env "sendWorkflowEmails" (jsOrElse calendarEvent.uid "")
                  workflowReminder.id scheduledDate (jsStrOpt workflowReminder.uuid) s1 with
              | (.error e, s2) => (.error e, s2)
              | (.ok _, s2) =>
                  (.ok { success := true, reminderId := some workflowReminder.id,
                         error := none }, s2)

/-- `EmailReminderService.scheduleReminder`. -/
def scheduleReminder (env : Env) (now : Int) (workflow : Workflow)
    (step : WorkflowStep) (calendarEvent : ExtendedCalendarEvent)
    (options : Options) (s : St) : ScheduleResult × St :=
  catchScheduleExceptions (scheduleReminderBody env now workflow step calendarEvent options s)

/-- The `for (const reminder of reminders)` loop of
`EmailReminderService.cancelRemindersForBooking`. -/
def cancelLoop (env : Env) : List ReminderRecord → St → Except String Unit × St
  | [], s => (.ok (), s)
  | reminder :: rest, s =>
      let afterCancel : Except String Unit × St :=
        if jsTruthyStr reminder.uuid then
          taskerCancel env (jsOrElse reminder.uuid "") s
        else
          (.ok (), s)
      match afterCancel with
      | (.error e, s1) => (.error e, s1)
      | (.ok _, s1) =>
          match dbMarkCancelled env reminder.id s1 with
          | (.error e, s2) => (.error e, s2)
          | (.ok _, s2) => cancelLoop env rest s2

/-- `EmailReminderService.cancelRemindersForBooking` (errors are caught
and logged at the top level). -/
def cancelRemindersForBooking (env : Env) (bookingUid : String) (s : St) : St :=
  let reminders := dbFindActive bookingUid .EMAIL s
  match cancelLoop env reminders s with
  | (.ok _, s1) => s1
  | (.error _, s1) => s1

end EmailReminderService

/-! ## SmsReminderService (`SmsReminderService.ts`) -/

namespace SmsReminderService

/-- Options of `SmsReminderService.scheduleReminder`. -/
structure Options where
  smsReminderNumber : Option String
  seatReferenceUid : Option String
  deriving DecidableEq, Repr

/-- `SmsReminderService.getRecipient`. -/
def getRecipient (step : WorkflowStep) (calendarEvent : ExtendedCalendarEvent)
    (smsReminderNumber : Option String) : Option String :=
  match step.action with
  | .SMS_ATTENDEE =>
      match jsStrOpt smsReminderNumber with
      | some n => some n
      | none => jsStrOpt ((calendarEvent.attendees.head?).bind (fun a => a.phoneNumber))
  | .SMS_NUMBER => jsStrOpt step.sendTo
  | _ => none

/-- Body of the `try` block of `SmsReminderService.sendSmsNow`.  The SMS
service creates the reminder record only; actual sending would require SMS
provider integration (no `tasker` call exists in this path). -/
def sendSmsNowBody (env : Env) (now : Int) (step : WorkflowStep)
    (calendarEvent : ExtendedCalendarEvent) (s : St) :
    Except String ScheduleResult × St :=
  match dbCreate env
      { bookingUid := calendarEvent.uid
        workflowStepId := some step.id
        method := .SMS
        scheduledDate := now
        scheduled := true
        seatReferenceId := none } s with
  | (.error e, s1) => (.error e, s1)
  | (.ok workflowReminder, s1) =>
      (.ok { success := true, reminderId := some workflowReminder.id, error := none }, s1)

/-- `SmsReminderService.sendSmsNow` (its own try/catch). -/
def sendSmsNow (env : Env) (now : Int) (step : WorkflowStep)
    (calendarEvent : ExtendedCalendarEvent) (s : St) :
    Except String ScheduleResult × St :=
  match sendSmsNowBody env now step calendarEvent s with
  | (.ok r, s1) => (.ok r, s1)
  | (.error e, s1) =>
      (.ok { success := false, reminderId := none,
             error := some (jsStringOfException e) }, s1)

/-- Body of the `try` block of `SmsReminderService.scheduleReminder`.
Note the order of the guards in the source: the Twilio-credentials check
precedes recipient resolution, which precedes the verification-pending
check.  The timed branch creates the reminder record and does not call the
task scheduler. -/
def scheduleReminderBody (env : Env) (now : Int) (workflow : Workflow)
    (step : WorkflowStep) (calendarEvent : ExtendedCalendarEvent)
    (options : Options) (s : St) : Except String ScheduleResult × St :=
  if !isSmsAction step.action then
    (.ok { success := false, reminderId := none, error := some "Not an SMS action" }, s)
  else if !isSmsConfigured env then
    (.ok { success := false, reminderId := none, error := some "SMS not configured" }, s)
  else
    match getRecipient step calendarEvent options.smsReminderNumber with
    | none =>
        (.ok { success := false, reminderId := none,
               error := some "No recipient phone number" }, s)
    | some _to =>
      if step.action = .SMS_ATTENDEE ∧ step.numberVerificationPending then
        (.ok { success := false, reminderId := none,
               error := some "Phone number not verified" }, s)
      else
        let locale := jsOrElse ((calendarEvent.attendees.head?).map (fun a => a.locale)) "en"
        let _message :=
          match step.reminderBody with
          | some body => replaceSmsVariables env.fmt body calendarEvent (some locale)
          | none =>
              replaceSmsVariables env.fmt
                (getSmsTemplateForTrigger workflow.trigger locale) calendarEvent (some locale)
        match calculateScheduledDate now workflow calendarEvent with
        | none =>
            (.ok { success := false, reminderId := none,
                   error := some "Could not calculate scheduled date" }, s)
        | some scheduledDate =>
          if isImmediateTrigger workflow.trigger then
            sendSmsNow env now step calendarEvent s
          else
            match dbCreate env
                { bookingUid := calendarEvent.uid
                  workflowStepId := some step.id
                  method := .SMS
                  scheduledDate := scheduledDate
                  scheduled := true
                  seatReferenceId := options.seatReferenceUid } s with
            | (.error e, s1) => (.error e, s1)
            | (.ok workflowReminder, s1) =>
                (.ok { success := true, reminderId := some workflowReminder.id,
                       error := none }, s1)

/-- `SmsReminderService.scheduleReminder`. -/
def scheduleReminder (env : Env) (now : Int) (workflow : Workflow)
    (step : WorkflowStep) (calendarEvent : ExtendedCalendarEvent)
    (options : Options) (s : St) : ScheduleResult × St :=
  catchScheduleExceptions (scheduleReminderBody env now workflow step calendarEvent options s)

/-- The `for (const reminder of reminders)` loop of
`SmsReminderService.cancelRemindersForBooking` (textually identical to the
email one). -/
def cancelLoop (env : Env) : List ReminderRecord → St → Except String Unit × St
  | [], s => (.ok (), s)
  | reminder :: rest, s =>
      let afterCancel : Except String Unit × St :=
        if jsTruthyStr reminder.uuid then
          taskerCancel env (jsOrElse reminder.uuid "") s
        else
          (.ok (), s)
      match afterCancel with
      | (.error e, s1) => (.error e, s1)
      | (.ok _, s1) =>
          match dbMarkCancelled env reminder.id s1 with
          | (.error e, s2) => (.error e, s2)
          | (.ok _, s2) => cancelLoop env rest s2

/-- `SmsReminderService.cancelRemindersForBooking`. -/
def cancelRemindersForBooking (env : Env) (bookingUid : String) (s : St) : St :=
  let reminders := dbFindActive bookingUid .SMS s
  match cancelLoop env reminders s with
  | (.ok _, s1) => s1
  | (.error _, s1) => s1

end SmsReminderService

/-! ## ReminderScheduler (`reminders/ReminderScheduler.ts`) -/

namespace ReminderScheduler

/-- One entry of `ScheduleAllResult.results`. -/
structure StepOutcome where
  workflowId : Nat
  stepId : Nat
  result : ScheduleResult
  deriving DecidableEq, Repr

/-- `ScheduleAllResult`. -/
structure ScheduleAllResult where
  scheduled : Nat
  failed : Nat
  skipped : Nat
  results : List StepOutcome
  deriving DecidableEq, Repr

/-- `ScheduleWorkflowRemindersArgs` (fields consumed by `scheduleAll`). -/
structure ScheduleWorkflowRemindersArgs where
  workflows : List Workflow
  calendarEvent : ExtendedCalendarEvent
  smsReminderNumber : Option String
  emailAttendeeSendToOverride : Option String
  seatReferenceUid : Option String
  isDryRun : Bool
  deriving DecidableEq, Repr

/-- `ReminderScheduler.scheduleStep`: guard on `isSupportedAction`, then
route to the email or SMS dispatcher; the trailing branch returns the
`unknown action` failure. -/
def scheduleStep (env : Env) (now : Int) (workflow : Workflow) (step : WorkflowStep)
    (calendarEvent : ExtendedCalendarEvent) (args : ScheduleWorkflowRemindersArgs)
    (s : St) : ScheduleResult × St :=
  if !isSupportedAction step.action then
    ({ success := false, reminderId := none, error := some "unsupported" }, s)
  else if isEmailAction step.action then
    EmailReminderService.scheduleReminder env now workflow step calendarEvent
      { emailAttendeeSendToOverride := args.emailAttendeeSendToOverride
        seatReferenceUid := args.seatReferenceUid } s
  else if isSmsAction step.action then
    SmsReminderService.scheduleReminder env now workflow step calendarEvent
      { smsReminderNumber := args.smsReminderNumber
        seatReferenceUid := args.seatReferenceUid } s
  else
    ({ success := false, reminderId := none, error := some "unknown action" }, s)

/-- Accumulation of one step result into the aggregate: push onto
`results`, then the `success`/`"unsupported"`/`"skipped"` classification
chain. -/
def recordOutcome (acc : ScheduleAllResult) (workflowId stepId : Nat)
    (stepResult : ScheduleResult) : ScheduleAllResult :=
  let outcome : StepOutcome := { workflowId := workflowId, stepId := stepId, result := stepResult }
  let acc := { acc with results := acc.results ++ [outcome] }
  if stepResult.success then
    { acc with scheduled := acc.scheduled + 1 }
  else if stepResult.error = some "unsupported" || stepResult.error = some "skipped" then
    { acc with skipped := acc.skipped + 1 }
  else
    { acc with failed := acc.failed + 1 }

/-- The inner `for (const step of workflow.steps)` loop of `scheduleAll`. -/
def stepsLoop (env : Env) (now : Int) (workflow : Workflow)
    (args : ScheduleWorkflowRemindersArgs) :
    List WorkflowStep → ScheduleAllResult → St → ScheduleAllResult × St
  | [], acc, s => (acc, s)
  | step :: rest, acc, s =>
      let res := scheduleStep env now workflow step args.calendarEvent args s
      stepsLoop env now workflow args rest
        (recordOutcome acc workflow.id step.id res.1) res.2

/-- The outer `for (const workflow of workflows)` loop of `scheduleAll`. -/
def workflowsLoop (env : Env) (now : Int) (args : ScheduleWorkflowRemindersArgs) :
    List Workflow → ScheduleAllResult → St → ScheduleAllResult × St
  | [], acc, s => (acc, s)
  | workflow :: rest, acc, s =>
      let res := stepsLoop env now workflow args workflow.steps acc s
      workflowsLoop env now args rest res.1 res.2

/-- `ReminderScheduler.scheduleAll`. -/
def scheduleAll (env : Env) (now : Int) (args : ScheduleWorkflowRemindersArgs)
    (s : St) : ScheduleAllResult × St :=
  let result : ScheduleAllResult := { scheduled := 0, failed := 0, skipped := 0, results := [] }
  if args.isDryRun then (result, s)
  else workflowsLoop env now args args.workflows result s

end ReminderScheduler

/-! ## WorkflowService (`service/WorkflowService.ts`) -/

namespace WorkflowService

/-- `WorkflowService._beforeAfterEventTriggers`. -/
def beforeAfterEventTriggers : List WorkflowTriggerEvents :=
  [.AFTER_EVENT, .BEFORE_EVENT]

/-- The workflow-selection section of
`WorkflowService.scheduleWorkflowsForNewBooking` (lines 137–161): which of
the fetched workflows are triggered for this booking state. -/
def workflowsToTrigger (allWorkflows : List Workflow)
    (isConfirmedByDefault isRescheduleEvent isNormalBookingOrFirstRecurringSlot : Bool) :
    List Workflow :=
  if isRescheduleEvent then
    allWorkflows.filter (fun workflow =>
      workflow.trigger = .RESCHEDULE_EVENT ||
        beforeAfterEventTriggers.contains workflow.trigger)
  else if !isConfirmedByDefault then
    []
  else
    allWorkflows.filter (fun workflow =>
      beforeAfterEventTriggers.contains workflow.trigger ||
        (isNormalBookingOrFirstRecurringSlot && workflow.trigger = .NEW_EVENT))

end WorkflowService

/-! ## Concrete fixtures used by witnesses and counterexamples -/

/-- A fully populated calendar event. -/
def evFix : ExtendedCalendarEvent :=
  { uid := some "bk1"
    title := "Standup"
    startTime := 1000
    endTime := 1030
    organizer := some { name := "Olga", email := "olga@example.com", timeZone := "UTC", locale := "en" }
    attendees := [{ name := "Ann", email := "ann@example.com", phoneNumber := some "+321",
                    timeZone := "UTC", locale := "en" }]
    location := some "Room 1"
    additionalNotes := some "bring the notes"
    metadata := some { videoCallUrl := some "https://meet.example.com/m1" }
    bookerUrl := "https://cal.example.com" }

/-- A calendar event with no attendees and no recipient data. -/
def evEmptyFix : ExtendedCalendarEvent :=
  { uid := some "bk2"
    title := ""
    startTime := 1000
    endTime := 1030
    organizer := none
    attendees := []
    location := none
    additionalNotes := none
    metadata := none
    bookerUrl := "https://cal.example.com" }

/-- A `BEFORE_EVENT` workflow, offset 30 minutes. -/
def wfBeforeFix : Workflow :=
  { id := 1, name := "remind", trigger := .BEFORE_EVENT, time := some 30,
    timeUnit := some .MINUTE, userId := some 4, teamId := none, steps := [] }

/-- A `BEFORE_EVENT` workflow whose `time` is present but zero. -/
def wfZeroTimeFix : Workflow :=
  { wfBeforeFix with time := some 0 }

/-- An environment in which every collaborator call succeeds and the
Twilio credentials are present. -/
def envFix : Env :=
  { procEnv := fun _ => some "configured"
    fmt := { fmtDate := fun _ _ => "Monday, January 5", fmtTime := fun _ _ => "9:00 AM" }
    uuidGen := fun n => some ("uuid-" ++ toString n)
    createExn := fun _ => none
    taskCreateExn := fun _ => none
    taskCancelExn := fun _ => none
    updateExn := fun _ => none }

/-- `envFix` with the Twilio credentials absent from the environment. -/
def envNoTwilioFix : Env :=
  { envFix with procEnv := fun _ => none }

/-- The empty collaborator state. -/
def stFix : St := { records := [], nextId := 0, tasks := [], cancelRequests := [] }

/-- An SMS step targeting a fixed number. -/
def stepSmsNumberFix : WorkflowStep :=
  { action := .SMS_NUMBER, sendTo := some "+5550100", template := "REMINDER",
    reminderBody := none, emailSubject := none, id := 7, sender := none,
    includeCalendarEvent := false, numberVerificationPending := false, numberRequired := none }

/-- An SMS-to-attendee step with no configured number. -/
def stepSmsAttendeeFix : WorkflowStep :=
  { stepSmsNumberFix with action := .SMS_ATTENDEE, sendTo := none, id := 8 }

/-- An email-to-attendee step. -/
def stepEmailAttendeeFix : WorkflowStep :=
  { stepSmsNumberFix with action := .EMAIL_ATTENDEE, sendTo := none, id := 9 }

/-! ## Claim C1 — scheduled-date calculation -/

/-- C1 counterexample: with trigger `BEFORE_EVENT`, `time = 0` present and
`timeUnit = MINUTE` present, the claim demands `eventStart - 0`, but both
calculators return null because the guard `if (!time || !timeUnit)` treats
the number `0` as falsy. -/
theorem C1_counterexample :
    wfZeroTimeFix.trigger = .BEFORE_EVENT ∧
    wfZeroTimeFix.time = some 0 ∧ wfZeroTimeFix.timeUnit = some .MINUTE ∧
    EmailReminderService.calculateScheduledDate 5 wfZeroTimeFix evFix = none ∧
    SmsReminderService.calculateScheduledDate 5 wfZeroTimeFix evFix = none ∧
    (none : Option Int) ≠ some (evFix.startTime - 0 * TimeUnit.minutes .MINUTE) := by
  refine ⟨rfl, rfl, rfl, rfl, rfl, ?_⟩
  decide

/-- C1 (amended): both dispatch services compute the scheduled date as:
immediate triggers (NEW_EVENT, RESCHEDULE_EVENT, EVENT_CANCELLED) yield the
current wall-clock time; BEFORE_EVENT yields event start minus the offset
and AFTER_EVENT yields event end plus the offset, yielding null when `time`
or `timeUnit` is absent **or when `time` is zero**; any other trigger
yields null. -/
theorem C1_scheduledDate_amended (now : Int) (w : Workflow) (ev : ExtendedCalendarEvent) :
    EmailReminderService.calculateScheduledDate now w ev = scheduledDateSpec now w ev ∧
    SmsReminderService.calculateScheduledDate now w ev = scheduledDateSpec now w ev := by
  have he : ∀ tr, EmailReminderService.isImmediateTrigger tr = isImmediateTriggerSpec tr := by
    intro tr; cases tr <;> rfl
  have hs : ∀ tr, SmsReminderService.isImmediateTrigger tr = isImmediateTriggerSpec tr := by
    intro tr; cases tr <;> rfl
  constructor <;>
  · cases htr : w.trigger <;> cases ht : w.time <;> cases hu : w.timeUnit <;>
      simp [EmailReminderService.calculateScheduledDate,
        SmsReminderService.calculateScheduledDate, he, hs,
        scheduledDateSpec, isImmediateTriggerSpec, jsFalsyNum, htr, ht, hu, beq_iff_eq]

/-! ## Evaluation lemmas for the enum-keyed list membership tests

The derived `BEq` used by `List.contains` comes from `DecidableEq`; these
lemmas re-express the concrete membership tests as plain disjunctions of
equations so that `simp` can evaluate them. -/

/-- Evaluation of `isSupportedAction` as a disjunction over the enum. -/
theorem isSupportedAction_eval (a : WorkflowActions) :
    isSupportedAction a = (a = .EMAIL_HOST || a = .EMAIL_ATTENDEE || a = .EMAIL_ADDRESS ||
      a = .SMS_ATTENDEE || a = .SMS_NUMBER) := by
  cases a <;> rfl

/-- Evaluation of `_beforeAfterEventTriggers.includes` as a disjunction. -/
theorem beforeAfterTriggers_eval (tr : WorkflowTriggerEvents) :
    WorkflowService.beforeAfterEventTriggers.contains tr =
      (tr = .AFTER_EVENT || tr = .BEFORE_EVENT) := by
  cases tr <;> rfl

/-! ## Claim C10 — action partition and routing -/

/-- C10: over the whole action enumeration, `isSupportedAction` holds iff
`isEmailAction` or `isSmsAction` holds, no action satisfies both, and a
step that passes the `isSupportedAction` guard in
`ReminderScheduler.scheduleStep` is routed to exactly the channel
dispatcher selected by `isEmailAction`/`isSmsAction` — the trailing
unknown-action branch is unreachable. -/
theorem C10_supportedAction_partition :
    (∀ action, isSupportedAction action = (isEmailAction action || isSmsAction action) ∧
      (isEmailAction action && isSmsAction action) = false) ∧
    ∀ env now workflow step calendarEvent args s,
      isSupportedAction step.action = true →
      ReminderScheduler.scheduleStep env now workflow step calendarEvent args s =
        (if isEmailAction step.action then
          EmailReminderService.scheduleReminder env now workflow step calendarEvent
            { emailAttendeeSendToOverride := args.emailAttendeeSendToOverride
              seatReferenceUid := args.seatReferenceUid } s
        else
          SmsReminderService.scheduleReminder env now workflow step calendarEvent
            { smsReminderNumber := args.smsReminderNumber
              seatReferenceUid := args.seatReferenceUid } s) := by
  constructor
  · intro action
    cases action <;> exact ⟨rfl, rfl⟩
  · intro env now workflow step calendarEvent args s hsup
    obtain ⟨act, sendTo, tpl, rb, es, sid, snd, ice, nvp, nr⟩ := step
    cases act <;> first
      | rfl
      | (rw [isSupportedAction_eval] at hsup; simp at hsup)

/-- The arguments fixture for the orchestrator. -/
def argsFix : ReminderScheduler.ScheduleWorkflowRemindersArgs :=
  { workflows := [], calendarEvent := evFix, smsReminderNumber := none,
    emailAttendeeSendToOverride := none, seatReferenceUid := none, isDryRun := false }

/-- C10 witness at a concrete supported step. -/
theorem C10_witness :
    isSupportedAction stepEmailAttendeeFix.action = true ∧
    ReminderScheduler.scheduleStep envFix 5 wfBeforeFix stepEmailAttendeeFix evFix argsFix stFix =
      (if isEmailAction stepEmailAttendeeFix.action then
        EmailReminderService.scheduleReminder envFix 5 wfBeforeFix stepEmailAttendeeFix evFix
          { emailAttendeeSendToOverride := argsFix.emailAttendeeSendToOverride
            seatReferenceUid := argsFix.seatReferenceUid } stFix
      else
        SmsReminderService.scheduleReminder envFix 5 wfBeforeFix stepEmailAttendeeFix evFix
          { smsReminderNumber := argsFix.smsReminderNumber
            seatReferenceUid := argsFix.seatReferenceUid } stFix) :=
  ⟨by decide,
    C10_supportedAction_partition.2 envFix 5 wfBeforeFix stepEmailAttendeeFix evFix argsFix stFix
      (by decide)⟩

/-! ## Claim C6 — recipient resolution precedence -/

/-- C6: for `EMAIL_ATTENDEE` a supplied (nonempty) override address is
used instead of the first attendee's email, and for `SMS_ATTENDEE` with
`numberVerificationPending` the SMS dispatch fails regardless of recipient
presence. -/
theorem C6_recipient_precedence :
    (∀ (step : WorkflowStep) (calendarEvent : ExtendedCalendarEvent) (o : String),
      step.action = .EMAIL_ATTENDEE → o ≠ "" →
      EmailReminderService.getRecipient step calendarEvent (some o) = some o) ∧
    (∀ env now workflow (step : WorkflowStep) calendarEvent options s,
      step.action = .SMS_ATTENDEE → step.numberVerificationPending = true →
      (SmsReminderService.scheduleReminder env now workflow step calendarEvent options s).1.success
        = false) := by
  constructor
  · intro step calendarEvent o ha ho
    simp [EmailReminderService.getRecipient, ha, jsTruthyStr, ho]
  · intro env now workflow step calendarEvent options s ha hp
    cases hc : isSmsConfigured env
    · simp [SmsReminderService.scheduleReminder, SmsReminderService.scheduleReminderBody,
        catchScheduleExceptions, isSmsAction, ha, hc]
    · cases hr : SmsReminderService.getRecipient step calendarEvent options.smsReminderNumber <;>
        simp [SmsReminderService.scheduleReminder, SmsReminderService.scheduleReminderBody,
          catchScheduleExceptions, isSmsAction, ha, hp, hc, hr]

/-- An SMS-to-attendee step whose number verification is pending, with a
resolvable recipient configured. -/
def stepSmsPendingFix : WorkflowStep :=
  { stepSmsAttendeeFix with numberVerificationPending := true, id := 10 }

/-- C6 witness at a concrete override and a concrete pending step. -/
theorem C6_witness :
    stepEmailAttendeeFix.action = .EMAIL_ATTENDEE ∧
    EmailReminderService.getRecipient stepEmailAttendeeFix evFix (some "boss@example.com") =
      some "boss@example.com" ∧
    stepSmsPendingFix.action = .SMS_ATTENDEE ∧
    stepSmsPendingFix.numberVerificationPending = true ∧
    (SmsReminderService.scheduleReminder envFix 5 wfBeforeFix stepSmsPendingFix evFix
        { smsReminderNumber := some "+777", seatReferenceUid := none } stFix).1.success = false :=
  ⟨rfl,
    C6_recipient_precedence.1 stepEmailAttendeeFix evFix "boss@example.com" rfl (by decide),
    rfl, rfl,
    C6_recipient_precedence.2 envFix 5 wfBeforeFix stepSmsPendingFix evFix
      { smsReminderNumber := some "+777", seatReferenceUid := none } stFix rfl rfl⟩

/-! ## Claim C5 — SMS guard order -/

/-- C5 counterexample: with the Twilio credentials absent **and** no
resolvable recipient, `SmsReminderService.scheduleReminder` returns the
channel-not-configured error, not the no-recipient error the claim
demands, because the credentials check precedes recipient resolution. -/
theorem C5_counterexample :
    isSmsConfigured envNoTwilioFix = false ∧
    SmsReminderService.getRecipient stepSmsAttendeeFix evEmptyFix none = none ∧
    (SmsReminderService.scheduleReminder envNoTwilioFix 5 wfBeforeFix stepSmsAttendeeFix
        evEmptyFix { smsReminderNumber := none, seatReferenceUid := none } stFix).1 =
      { success := false, reminderId := none, error := some "SMS not configured" } ∧
    ({ success := false, reminderId := none, error := some "SMS not configured" } : ScheduleResult)
      ≠ { success := false, reminderId := none, error := some "No recipient phone number" } :=
  ⟨rfl, rfl, rfl, by decide⟩

/-- C5 (amended): the SMS guards run in the source order
credentials-then-recipient: with absent credentials every SMS dispatch
fails with the channel-not-configured error (even when no recipient is
resolvable); with credentials present and no resolvable recipient it fails
with the distinct no-recipient error; and the credentials check reads the
environment on each call — a second call under a changed environment is
classified by the new environment, with no caching. -/
theorem C5_smsGuardOrder_amended :
    ∀ env env2 now workflow (step : WorkflowStep) calendarEvent options s,
      isSmsAction step.action = true →
      ((isSmsConfigured env = false →
        SmsReminderService.scheduleReminder env now workflow step calendarEvent options s =
          ({ success := false, reminderId := none, error := some "SMS not configured" }, s)) ∧
       (isSmsConfigured env = true →
        SmsReminderService.getRecipient step calendarEvent options.smsReminderNumber = none →
        SmsReminderService.scheduleReminder env now workflow step calendarEvent options s =
          ({ success := false, reminderId := none,
             error := some "No recipient phone number" }, s)) ∧
       (isSmsConfigured env = false → isSmsConfigured env2 = true →
        SmsReminderService.getRecipient step calendarEvent options.smsReminderNumber = none →
        SmsReminderService.scheduleReminder env2 now workflow step calendarEvent options
            ((SmsReminderService.scheduleReminder env now workflow step calendarEvent options s).2)
          = ({ success := false, reminderId := none,
               error := some "No recipient phone number" }, s))) := by
  intro env env2 now workflow step calendarEvent options s hsms
  have h1 : isSmsConfigured env = false →
      SmsReminderService.scheduleReminder env now workflow step calendarEvent options s =
        ({ success := false, reminderId := none, error := some "SMS not configured" }, s) := by
    intro hc
    simp [SmsReminderService.scheduleReminder, SmsReminderService.scheduleReminderBody,
      catchScheduleExceptions, hsms, hc]
  have h2 : ∀ envx, isSmsConfigured envx = true →
      SmsReminderService.getRecipient step calendarEvent options.smsReminderNumber = none →
      SmsReminderService.scheduleReminder envx now workflow step calendarEvent options s =
        ({ success := false, reminderId := none,
           error := some "No recipient phone number" }, s) := by
    intro envx hc hr
    simp [SmsReminderService.scheduleReminder, SmsReminderService.scheduleReminderBody,
      catchScheduleExceptions, hsms, hc, hr]
  refine ⟨h1, h2 env, ?_⟩
  intro hc hc2 hr
  rw [h1 hc]
  exact h2 env2 hc2 hr

/-- C5 witness: the amended guard order, exercised at a configured
environment with no resolvable recipient, and across an environment
change. -/
theorem C5_witness :
    isSmsAction stepSmsAttendeeFix.action = true ∧
    isSmsConfigured envNoTwilioFix = false ∧ isSmsConfigured envFix = true ∧
    SmsReminderService.getRecipient stepSmsAttendeeFix evEmptyFix none = none ∧
    SmsReminderService.scheduleReminder envFix 5 wfBeforeFix stepSmsAttendeeFix evEmptyFix
        { smsReminderNumber := none, seatReferenceUid := none } stFix =
      ({ success := false, reminderId := none, error := some "No recipient phone number" },
        stFix) :=
  ⟨by decide, rfl, rfl, rfl,
    (C5_smsGuardOrder_amended envFix envFix 5 wfBeforeFix stepSmsAttendeeFix evEmptyFix
        { smsReminderNumber := none, seatReferenceUid := none } stFix (by decide)).2.1 rfl rfl⟩

/-! ## Claim C8 — workflow selection per booking state -/

/-- C8: the selection in `scheduleWorkflowsForNewBooking` picks exactly
the spec's subsets: reschedule → RESCHEDULE_EVENT/BEFORE_EVENT/AFTER_EVENT
workflows; new unconfirmed → none; new confirmed → BEFORE_EVENT and
AFTER_EVENT always, plus NEW_EVENT only for an original booking or first
recurring slot. -/
theorem C8_workflowSelection (allWorkflows : List Workflow)
    (isConfirmedByDefault isRescheduleEvent isNormalBookingOrFirstRecurringSlot : Bool)
    (w : Workflow) :
    (isRescheduleEvent = true →
      (w ∈ WorkflowService.workflowsToTrigger allWorkflows isConfirmedByDefault
          isRescheduleEvent isNormalBookingOrFirstRecurringSlot ↔
        w ∈ allWorkflows ∧ (w.trigger = .RESCHEDULE_EVENT ∨ w.trigger = .BEFORE_EVENT ∨
          w.trigger = .AFTER_EVENT))) ∧
    (isRescheduleEvent = false → isConfirmedByDefault = false →
      WorkflowService.workflowsToTrigger allWorkflows isConfirmedByDefault isRescheduleEvent
        isNormalBookingOrFirstRecurringSlot = []) ∧
    (isRescheduleEvent = false → isConfirmedByDefault = true →
      (w ∈ WorkflowService.workflowsToTrigger allWorkflows isConfirmedByDefault
          isRescheduleEvent isNormalBookingOrFirstRecurringSlot ↔
        w ∈ allWorkflows ∧ (w.trigger = .BEFORE_EVENT ∨ w.trigger = .AFTER_EVENT ∨
          (isNormalBookingOrFirstRecurringSlot = true ∧ w.trigger = .NEW_EVENT)))) := by
  refine ⟨?_, ?_, ?_⟩
  · rintro rfl
    simp only [WorkflowService.workflowsToTrigger, if_true, List.mem_filter]
    cases htr : w.trigger <;> simp [beforeAfterTriggers_eval, WorkflowService.beforeAfterEventTriggers, htr]
  · rintro rfl rfl
    rfl
  · rintro rfl rfl
    simp only [WorkflowService.workflowsToTrigger, List.mem_filter]
    cases isNormalBookingOrFirstRecurringSlot <;> cases htr : w.trigger <;>
      simp [beforeAfterTriggers_eval, WorkflowService.beforeAfterEventTriggers, htr]

/-- C8 witness: a reschedule selects the BEFORE_EVENT workflow; an
unconfirmed new booking selects nothing. -/
theorem C8_witness :
    (wfBeforeFix ∈ WorkflowService.workflowsToTrigger [wfBeforeFix] true true true ↔
      wfBeforeFix ∈ [wfBeforeFix] ∧ (wfBeforeFix.trigger = .RESCHEDULE_EVENT ∨
        wfBeforeFix.trigger = .BEFORE_EVENT ∨ wfBeforeFix.trigger = .AFTER_EVENT)) ∧
    WorkflowService.workflowsToTrigger [wfBeforeFix] false false true = [] :=
  ⟨(C8_workflowSelection [wfBeforeFix] true true true wfBeforeFix).1 rfl,
    (C8_workflowSelection [wfBeforeFix] false false true wfBeforeFix).2.1 rfl rfl⟩

/-! ## Claim C3 — outcome classification of `scheduleAll` -/

namespace ReminderScheduler

/-- Number of results classified as scheduled (`success: true`). -/
def scheduledCount (l : List StepOutcome) : Nat :=
  (l.filter (fun o => o.result.success)).length

/-- Number of results classified as skipped (`success: false` with error
text exactly `"unsupported"` or `"skipped"`). -/
def skippedCount (l : List StepOutcome) : Nat :=
  (l.filter (fun o => !o.result.success &&
    (o.result.error = some "unsupported" || o.result.error = some "skipped"))).length

/-- Number of results classified as failed (every other failure). -/
def failedCount (l : List StepOutcome) : Nat :=
  (l.filter (fun o => !o.result.success &&
    !(o.result.error = some "unsupported" || o.result.error = some "skipped"))).length

/-- The three counters agree with the classification of the accumulated
result list. -/
def countsOk (res : ScheduleAllResult) : Prop :=
  res.scheduled = scheduledCount res.results ∧
    res.skipped = skippedCount res.results ∧
    res.failed = failedCount res.results

end ReminderScheduler

/-- Helper: `recordOutcome` preserves the counter/classification
agreement. -/
theorem recordOutcome_countsOk (acc : ReminderScheduler.ScheduleAllResult)
    (wid sid : Nat) (r : ScheduleResult) (h : ReminderScheduler.countsOk acc) :
    ReminderScheduler.countsOk (ReminderScheduler.recordOutcome acc wid sid r) := by
  obtain ⟨h1, h2, h3⟩ := h
  unfold ReminderScheduler.countsOk ReminderScheduler.recordOutcome
    ReminderScheduler.scheduledCount ReminderScheduler.skippedCount
    ReminderScheduler.failedCount at *
  by_cases hs : r.success = true
  · simp [hs, List.filter_append, h1, h2, h3]
  · have hs' : r.success = false := by revert hs; cases r.success <;> simp
    by_cases he : (r.error = some "unsupported" ∨ r.error = some "skipped")
    · rcases he with he | he <;> simp [hs', he, List.filter_append, h1, h2, h3]
    · push_neg at he
      simp [hs', he.1, he.2, List.filter_append, h1, h2, h3]

/-- Helper: the inner steps loop preserves the agreement. -/
theorem stepsLoop_countsOk (env : Env) (now : Int) (workflow : Workflow)
    (args : ReminderScheduler.ScheduleWorkflowRemindersArgs) :
    ∀ (steps : List WorkflowStep) (acc : ReminderScheduler.ScheduleAllResult) (s : St),
      ReminderScheduler.countsOk acc →
      ReminderScheduler.countsOk (ReminderScheduler.stepsLoop env now workflow args steps acc s).1 := by
  intro steps
  induction steps with
  | nil => intro acc s h; exact h
  | cons st rest ih =>
      intro acc s h
      exact ih _ _ (recordOutcome_countsOk _ _ _ _ h)

/-- Helper: the outer workflows loop preserves the agreement. -/
theorem workflowsLoop_countsOk (env : Env) (now : Int)
    (args : ReminderScheduler.ScheduleWorkflowRemindersArgs) :
    ∀ (ws : List Workflow) (acc : ReminderScheduler.ScheduleAllResult) (s : St),
      ReminderScheduler.countsOk acc →
      ReminderScheduler.countsOk (ReminderScheduler.workflowsLoop env now args ws acc s).1 := by
  intro ws
  induction ws with
  | nil => intro acc s h; exact h
  | cons w rest ih =>
      intro acc s h
      exact ih _ _ (stepsLoop_countsOk env now w args w.steps acc s h)

/-- C3: for every workflow list, the counters of `scheduleAll` classify
the per-step outcomes exactly as: `success:true` → scheduled;
`success:false` with error text exactly `"unsupported"` or `"skipped"` →
skipped; every other failure → failed; and a step whose action is
unsupported yields the `"unsupported"` failure, which the classification
counts as skipped and never as failed. -/
theorem C3_outcomeClassification :
    (∀ env now args s,
      ReminderScheduler.countsOk (ReminderScheduler.scheduleAll env now args s).1) ∧
    (∀ env now workflow (step : WorkflowStep) calendarEvent args s,
      isSupportedAction step.action = false →
      ReminderScheduler.scheduleStep env now workflow step calendarEvent args s =
        ({ success := false, reminderId := none, error := some "unsupported" }, s)) ∧
    (∀ acc wid sid,
      (ReminderScheduler.recordOutcome acc wid sid
        { success := false, reminderId := none, error := some "unsupported" }).skipped =
          acc.skipped + 1 ∧
      (ReminderScheduler.recordOutcome acc wid sid
        { success := false, reminderId := none, error := some "unsupported" }).failed =
          acc.failed) := by
  refine ⟨?_, ?_, ?_⟩
  · intro env now args s
    unfold ReminderScheduler.scheduleAll
    by_cases hd : args.isDryRun = true
    · simp [hd, ReminderScheduler.countsOk, ReminderScheduler.scheduledCount,
        ReminderScheduler.skippedCount, ReminderScheduler.failedCount]
    · have hd' : args.isDryRun = false := by revert hd; cases args.isDryRun <;> simp
      simp only [hd', Bool.false_eq_true, if_false]
      refine workflowsLoop_countsOk env now args args.workflows _ s ?_
      exact ⟨rfl, rfl, rfl⟩
  · intro env now workflow step calendarEvent args s hsup
    unfold ReminderScheduler.scheduleStep
    simp [hsup]
  · intro acc wid sid
    constructor <;> rfl

/-- An unsupported step (an action outside the supported set). -/
def stepUnsupportedFix : WorkflowStep :=
  { stepSmsNumberFix with action := .WHATSAPP_ATTENDEE, id := 11 }

/-- C3 witness: the counts agree on a concrete run containing a supported
and an unsupported step, and the unsupported step is skipped, not
failed. -/
theorem C3_witness :
    ReminderScheduler.countsOk
      (ReminderScheduler.scheduleAll envFix 5
        { argsFix with workflows :=
            [{ wfBeforeFix with steps := [stepEmailAttendeeFix, stepUnsupportedFix] }] }
        stFix).1 ∧
    isSupportedAction stepUnsupportedFix.action = false ∧
    ReminderScheduler.scheduleStep envFix 5 wfBeforeFix stepUnsupportedFix evFix argsFix stFix =
      ({ success := false, reminderId := none, error := some "unsupported" }, stFix) :=
  ⟨C3_outcomeClassification.1 envFix 5
      { argsFix with workflows :=
          [{ wfBeforeFix with steps := [stepEmailAttendeeFix, stepUnsupportedFix] }] } stFix,
    by decide,
    C3_outcomeClassification.2.1 envFix 5 wfBeforeFix stepUnsupportedFix evFix argsFix stFix
      (by decide)⟩

/-! ## Claim C4 — exceptions are caught and converted, never propagated -/

/-- C4: for either channel, `scheduleReminder` is the
`catchScheduleExceptions` image of its try-block body: whenever any
collaborator invoked during the call raises an exception `e`, the caller
receives `{success:false, error:String(e)}` together with the state
reached at the throw point, and when the body completes its result passes
through unchanged — no exception reaches the caller of
`scheduleReminder`, whose result type is exception-free. -/
theorem C4_exceptionsCaught :
    ∀ env now workflow step calendarEvent
      (emailOptions : EmailReminderService.Options) (smsOptions : SmsReminderService.Options)
      (s : St),
      (∀ e s1,
        EmailReminderService.scheduleReminderBody env now workflow step calendarEvent
            emailOptions s = (.error e, s1) →
        EmailReminderService.scheduleReminder env now workflow step calendarEvent
            emailOptions s =
          ({ success := false, reminderId := none,
             error := some (jsStringOfException e) }, s1)) ∧
      (∀ r s1,
        EmailReminderService.scheduleReminderBody env now workflow step calendarEvent
            emailOptions s = (.ok r, s1) →
        EmailReminderService.scheduleReminder env now workflow step calendarEvent
            emailOptions s = (r, s1)) ∧
      (∀ e s1,
        SmsReminderService.scheduleReminderBody env now workflow step calendarEvent
            smsOptions s = (.error e, s1) →
        SmsReminderService.scheduleReminder env now workflow step calendarEvent
            smsOptions s =
          ({ success := false, reminderId := none,
             error := some (jsStringOfException e) }, s1)) ∧
      (∀ r s1,
        SmsReminderService.scheduleReminderBody env now workflow step calendarEvent
            smsOptions s = (.ok r, s1) →
        SmsReminderService.scheduleReminder env now workflow step calendarEvent
            smsOptions s = (r, s1)) := by
  intro env now workflow step calendarEvent emailOptions smsOptions s
  refine ⟨?_, ?_, ?_, ?_⟩
  · intro e s1 h
    unfold EmailReminderService.scheduleReminder catchScheduleExceptions
    rw [h]
  · intro r s1 h
    unfold EmailReminderService.scheduleReminder catchScheduleExceptions
    rw [h]
  · intro e s1 h
    unfold SmsReminderService.scheduleReminder catchScheduleExceptions
    rw [h]
  · intro r s1 h
    unfold SmsReminderService.scheduleReminder catchScheduleExceptions
    rw [h]

/-- `envFix` whose database `create` throws. -/
def envBoomFix : Env :=
  { envFix with createExn := fun _ => some "PrismaClientKnownRequestError" }

/-- C4 witness: with a throwing database, the email body raises and the
dispatcher converts the exception to a reported failure with the
stringified exception, preserving the state at the throw point. -/
theorem C4_witness :
    EmailReminderService.scheduleReminderBody envBoomFix 5 wfBeforeFix stepEmailAttendeeFix
        evFix { emailAttendeeSendToOverride := none, seatReferenceUid := none } stFix =
      (.error "PrismaClientKnownRequestError", stFix) ∧
    EmailReminderService.scheduleReminder envBoomFix 5 wfBeforeFix stepEmailAttendeeFix
        evFix { emailAttendeeSendToOverride := none, seatReferenceUid := none } stFix =
      ({ success := false, reminderId := none,
         error := some (jsStringOfException "PrismaClientKnownRequestError") }, stFix) :=
  ⟨rfl,
    (C4_exceptionsCaught envBoomFix 5 wfBeforeFix stepEmailAttendeeFix evFix
        { emailAttendeeSendToOverride := none, seatReferenceUid := none }
        { smsReminderNumber := none, seatReferenceUid := none } stFix).1
      "PrismaClientKnownRequestError" stFix rfl⟩

/-! ## Claim C7 — cancellation is idempotent -/

/-- Mark every record whose id is in `ids` as cancelled. -/
def markIds (ids : List Nat) (x : ReminderRecord) : ReminderRecord :=
  if x.id ∈ ids then { x with cancelled := true } else x

/-- Proof-side description of the effect of the cancellation loop when no
collaborator throws: issue a cancel request per truthy uuid and set
`cancelled := true` per record, in list order. -/
def applyCancellations : List ReminderRecord → St → St
  | [], s => s
  | r :: rest, s =>
      let s1 := if jsTruthyStr r.uuid then
          { s with cancelRequests := s.cancelRequests ++ [jsOrElse r.uuid ""] } else s
      let newRecords := s1.records.map
        (fun x => if x.id = r.id then { x with cancelled := true } else x)
      applyCancellations rest { s1 with records := newRecords }

/-- Under a non-throwing environment the email cancellation loop computes
`applyCancellations`. -/
theorem emailCancelLoop_benign (env : Env)
    (hTC : ∀ u, env.taskCancelExn u = none) (hUP : ∀ i, env.updateExn i = none) :
    ∀ (rems : List ReminderRecord) (s : St),
      EmailReminderService.cancelLoop env rems s = (.ok (), applyCancellations rems s) := by
  intro rems
  induction rems with
  | nil => intro s; rfl
  | cons r rest ih =>
      intro s
      cases hu : jsTruthyStr r.uuid <;>
        simp [EmailReminderService.cancelLoop, applyCancellations, taskerCancel,
          dbMarkCancelled, hTC, hUP, hu, ih]

/-- The SMS cancellation loop is the same function as the email one. -/
theorem smsCancelLoop_eq_email (env : Env) :
    ∀ (rems : List ReminderRecord) (s : St),
      SmsReminderService.cancelLoop env rems s = EmailReminderService.cancelLoop env rems s := by
  intro rems
  induction rems with
  | nil => intro s; rfl
  | cons r rest ih =>
      intro s
      simp only [SmsReminderService.cancelLoop, EmailReminderService.cancelLoop]
      cases hu : jsTruthyStr r.uuid <;> simp [hu, ih]

/-- The records after `applyCancellations rems s` are those of `s` with
every id occurring in `rems` marked cancelled. -/
theorem applyCancellations_records :
    ∀ (rems : List ReminderRecord) (s : St),
      (applyCancellations rems s).records =
        s.records.map (markIds (rems.map (fun r => r.id))) := by
  intro rems
  induction rems with
  | nil =>
      intro s
      have hid : markIds ([] : List Nat) = fun x => x := by
        funext x
        simp [markIds]
      simp [applyCancellations, hid]
  | cons r rest ih =>
      intro s
      simp only [applyCancellations, ih, List.map_map, List.map_cons]
      cases hu : jsTruthyStr r.uuid <;>
      · simp only [hu, if_true, if_false, Bool.false_eq_true]
        apply List.map_congr_left
        intro x _
        simp only [Function.comp_apply, markIds]
        by_cases hx : x.id = r.id
        · by_cases hm : x.id ∈ rest.map (fun r => r.id) <;>
            simp [hx, hm]
        · by_cases hm : x.id ∈ rest.map (fun r => r.id) <;>
            simp [hx, hm]

/-- `applyCancellations` leaves `bookingUid`, `method`, `scheduled`
untouched and only ever sets `cancelled`. -/
theorem markIds_fields (ids : List Nat) (x : ReminderRecord) :
    (markIds ids x).id = x.id ∧ (markIds ids x).bookingUid = x.bookingUid ∧
    (markIds ids x).method = x.method ∧ (markIds ids x).scheduled = x.scheduled ∧
    ((markIds ids x).cancelled = x.cancelled ∨ (markIds ids x).cancelled = true) := by
  unfold markIds
  by_cases hm : x.id ∈ ids <;> simp [hm]

/-- After cancelling every active reminder of a booking and channel, no
active reminder of that booking and channel remains. -/
theorem applyCancellations_clears (bookingUid : String) (method : WorkflowMethods) (s : St) :
    dbFindActive bookingUid method
      (applyCancellations (dbFindActive bookingUid method s) s) = [] := by
  have hnil : ∀ a ∈ (applyCancellations (dbFindActive bookingUid method s) s).records,
      ¬(a.bookingUid = some bookingUid && a.method = method &&
        a.cancelled = false && a.scheduled = true) = true := by
    intro a ha
    rw [applyCancellations_records] at ha
    obtain ⟨x, hx, rfl⟩ := List.mem_map.mp ha
    by_cases hm : x.id ∈ (dbFindActive bookingUid method s).map (fun r => r.id)
    · simp [markIds, hm]
    · rw [markIds, if_neg hm]
      intro hpred
      apply hm
      refine List.mem_map.mpr ⟨x, ?_, rfl⟩
      exact List.mem_filter.mpr ⟨hx, hpred⟩
  exact List.filter_eq_nil_iff.mpr hnil

/-- After the cancellation pass, every reminder of that booking and
channel that the lookup filter would consider (`scheduled = true`) is
cancelled. -/
theorem applyCancellations_allCancelled (bookingUid : String) (method : WorkflowMethods)
    (s : St) :
    ∀ x ∈ (applyCancellations (dbFindActive bookingUid method s) s).records,
      x.bookingUid = some bookingUid → x.method = method → x.scheduled = true →
      x.cancelled = true := by
  intro a ha hb hm hs
  rw [applyCancellations_records] at ha
  obtain ⟨x, hx, rfl⟩ := List.mem_map.mp ha
  by_cases hmem : x.id ∈ (dbFindActive bookingUid method s).map (fun r => r.id)
  · simp [markIds, hmem]
  · simp only [markIds, hmem, if_false] at hb hm hs ⊢
    by_cases hc : x.cancelled = true
    · exact hc
    · exfalso
      apply hmem
      refine List.mem_map.mpr ⟨x, ?_, rfl⟩
      refine List.mem_filter.mpr ⟨hx, ?_⟩
      have hc' : x.cancelled = false := by revert hc; cases x.cancelled <;> simp
      simp [hb, hm, hs, hc']

/-- C7: under an environment in which the task scheduler and the database
update do not throw, `cancelRemindersForBooking` of either channel cancels
every matching record, the lookup filter then finds nothing (so a second
call affects zero records), and a second call returns exactly the same
state — the operation is idempotent. -/
theorem C7_cancelIdempotent :
    ∀ (env : Env) (bookingUid : String) (s : St),
      (∀ u, env.taskCancelExn u = none) →
      (∀ i, env.updateExn i = none) →
      ((∀ x ∈ (EmailReminderService.cancelRemindersForBooking env bookingUid s).records,
          x.bookingUid = some bookingUid → x.method = .EMAIL → x.scheduled = true →
          x.cancelled = true) ∧
        dbFindActive bookingUid .EMAIL
          (EmailReminderService.cancelRemindersForBooking env bookingUid s) = [] ∧
        EmailReminderService.cancelRemindersForBooking env bookingUid
          (EmailReminderService.cancelRemindersForBooking env bookingUid s) =
          EmailReminderService.cancelRemindersForBooking env bookingUid s) ∧
      ((∀ x ∈ (SmsReminderService.cancelRemindersForBooking env bookingUid s).records,
          x.bookingUid = some bookingUid → x.method = .SMS → x.scheduled = true →
          x.cancelled = true) ∧
        dbFindActive bookingUid .SMS
          (SmsReminderService.cancelRemindersForBooking env bookingUid s) = [] ∧
        SmsReminderService.cancelRemindersForBooking env bookingUid
          (SmsReminderService.cancelRemindersForBooking env bookingUid s) =
          SmsReminderService.cancelRemindersForBooking env bookingUid s) := by
  intro env bookingUid s hTC hUP
  have hEmailRun : ∀ s', EmailReminderService.cancelRemindersForBooking env bookingUid s' =
      applyCancellations (dbFindActive bookingUid .EMAIL s') s' := by
    intro s'
    unfold EmailReminderService.cancelRemindersForBooking
    simp only [emailCancelLoop_benign env hTC hUP]
  have hSmsRun : ∀ s', SmsReminderService.cancelRemindersForBooking env bookingUid s' =
      applyCancellations (dbFindActive bookingUid .SMS s') s' := by
    intro s'
    unfold SmsReminderService.cancelRemindersForBooking
    simp only [smsCancelLoop_eq_email, emailCancelLoop_benign env hTC hUP]
  constructor
  · refine ⟨?_, ?_, ?_⟩
    · rw [hEmailRun]
      exact applyCancellations_allCancelled bookingUid .EMAIL s
    · rw [hEmailRun]
      exact applyCancellations_clears bookingUid .EMAIL s
    · rw [hEmailRun s, hEmailRun]
      rw [applyCancellations_clears bookingUid .EMAIL s]
      rfl
  · refine ⟨?_, ?_, ?_⟩
    · rw [hSmsRun]
      exact applyCancellations_allCancelled bookingUid .SMS s
    · rw [hSmsRun]
      exact applyCancellations_clears bookingUid .SMS s
    · rw [hSmsRun s, hSmsRun]
      rw [applyCancellations_clears bookingUid .SMS s]
      rfl

/-- A state holding one active email reminder and one active SMS reminder
of booking `bk1`, plus an unrelated record. -/
def stActiveFix : St :=
  { records :=
      [{ id := 0, bookingUid := some "bk1", workflowStepId := some 9, method := .EMAIL,
         scheduledDate := 970, scheduled := true, cancelled := false,
         uuid := some "uuid-0", seatReferenceId := none },
       { id := 1, bookingUid := some "bk1", workflowStepId := some 7, method := .SMS,
         scheduledDate := 970, scheduled := true, cancelled := false,
         uuid := none, seatReferenceId := none },
       { id := 2, bookingUid := some "other", workflowStepId := none, method := .EMAIL,
         scheduledDate := 50, scheduled := true, cancelled := false,
         uuid := some "uuid-2", seatReferenceId := none }]
    nextId := 3, tasks := [], cancelRequests := [] }

/-- C7 witness: the idempotence properties at a concrete environment and a
concrete populated state. -/
theorem C7_witness :
    (∀ x ∈ (EmailReminderService.cancelRemindersForBooking envFix "bk1" stActiveFix).records,
        x.bookingUid = some "bk1" → x.method = .EMAIL → x.scheduled = true →
        x.cancelled = true) ∧
    dbFindActive "bk1" .EMAIL
      (EmailReminderService.cancelRemindersForBooking envFix "bk1" stActiveFix) = [] ∧
    EmailReminderService.cancelRemindersForBooking envFix "bk1"
      (EmailReminderService.cancelRemindersForBooking envFix "bk1" stActiveFix) =
      EmailReminderService.cancelRemindersForBooking envFix "bk1" stActiveFix :=
  (C7_cancelIdempotent envFix "bk1" stActiveFix (fun _ => rfl) (fun _ => rfl)).1

/-! ## Claim C2 — record creation and task-scheduler hand-off -/

/-- C2 counterexample: a successful SMS dispatch on a timed trigger
creates the reminder record but hands **nothing** to the external task
scheduler — the SMS service contains no `tasker.create` call, so the
claimed hand-off does not happen for the SMS channel. -/
theorem C2_counterexample :
    SmsReminderService.isImmediateTrigger wfBeforeFix.trigger = false ∧
    (SmsReminderService.scheduleReminder envFix 5 wfBeforeFix stepSmsNumberFix evFix
        { smsReminderNumber := none, seatReferenceUid := none } stFix).1.success = true ∧
    (SmsReminderService.scheduleReminder envFix 5 wfBeforeFix stepSmsNumberFix evFix
        { smsReminderNumber := none, seatReferenceUid := none } stFix).2.records.length = 1 ∧
    (SmsReminderService.scheduleReminder envFix 5 wfBeforeFix stepSmsNumberFix evFix
        { smsReminderNumber := none, seatReferenceUid := none } stFix).2.tasks = [] :=
  ⟨rfl, rfl, rfl, rfl⟩

/-- C2 (amended): every successful dispatch of either channel appends
exactly one ReminderRecord carrying the computed scheduled date,
`scheduled = true` and the channel's method, and returns its id.  For the
email channel (timed and immediate alike) the external task scheduler is
additionally handed one task carrying the record's correlation id and the
record's target time.  The SMS channel creates only the record: it never
touches the task scheduler. -/
theorem C2_dispatch_amended :
    (∀ env now workflow step calendarEvent (options : EmailReminderService.Options) (s : St),
      (EmailReminderService.scheduleReminder env now workflow step calendarEvent options s).1.success = true →
      ∃ rec : ReminderRecord,
        (EmailReminderService.scheduleReminder env now workflow step calendarEvent options s).2.records
          = s.records ++ [rec] ∧
        rec.method = .EMAIL ∧ rec.scheduled = true ∧
        EmailReminderService.calculateScheduledDate now workflow calendarEvent =
          some rec.scheduledDate ∧
        (EmailReminderService.scheduleReminder env now workflow step calendarEvent options s).1.reminderId
          = some rec.id ∧
        ∃ t : SchedulerTask,
          (EmailReminderService.scheduleReminder env now workflow step calendarEvent options s).2.tasks
            = s.tasks ++ [t] ∧
          t.taskType = "sendWorkflowEmails" ∧ t.workflowReminderId = rec.id ∧
          t.scheduledAt = rec.scheduledDate ∧ t.referenceUid = jsStrOpt rec.uuid) ∧
    (∀ env now workflow step calendarEvent (options : SmsReminderService.Options) (s : St),
      (SmsReminderService.scheduleReminder env now workflow step calendarEvent options s).1.success = true →
      ∃ rec : ReminderRecord,
        (SmsReminderService.scheduleReminder env now workflow step calendarEvent options s).2.records
          = s.records ++ [rec] ∧
        rec.method = .SMS ∧ rec.scheduled = true ∧
        SmsReminderService.calculateScheduledDate now workflow calendarEvent =
          some rec.scheduledDate ∧
        (SmsReminderService.scheduleReminder env now workflow step calendarEvent options s).1.reminderId
          = some rec.id ∧
        (SmsReminderService.scheduleReminder env now workflow step calendarEvent options s).2.tasks
          = s.tasks) := by
  constructor
  · intro env now workflow step calendarEvent options s
    unfold EmailReminderService.scheduleReminder catchScheduleExceptions
      EmailReminderService.scheduleReminderBody
    cases hA : isEmailAction step.action
    · simp
    · simp only [Bool.not_true, Bool.false_eq_true, if_false]
      cases hR : EmailReminderService.getRecipient step calendarEvent
          options.emailAttendeeSendToOverride
      · simp
      · simp only []
        cases hC : EmailReminderService.calculateScheduledDate now workflow calendarEvent
        · simp
        · rename_i scheduledDate
          simp only []
          cases hI : EmailReminderService.isImmediateTrigger workflow.trigger
          · simp only [Bool.false_eq_true, if_false]
            cases hce : env.createExn s.nextId
            · cases htc : env.taskCreateExn s.nextId
              · simp only [dbCreate, hce, taskerCreate, newRecord, htc]
                intro _
                exact ⟨_, rfl, rfl, rfl, rfl, rfl, _, rfl, rfl, rfl, rfl, rfl⟩
              · simp [dbCreate, hce, taskerCreate, newRecord, htc]
            · simp [dbCreate, hce]
          · simp only [if_true]
            unfold EmailReminderService.sendEmailNow EmailReminderService.sendEmailNowBody
            cases hce : env.createExn s.nextId
            · cases htc : env.taskCreateExn s.nextId
              · simp only [dbCreate, hce, taskerCreate, newRecord, htc]
                intro _
                have hCnow : EmailReminderService.calculateScheduledDate now workflow calendarEvent
                    = some now := by
                  unfold EmailReminderService.calculateScheduledDate
                  simp [hI]
                rw [hC] at hCnow
                exact ⟨_, rfl, rfl, rfl, hCnow, rfl, _, rfl, rfl, rfl, rfl, rfl⟩
              · simp [dbCreate, hce, taskerCreate, newRecord, htc]
            · simp [dbCreate, hce]
  · intro env now workflow step calendarEvent options s
    unfold SmsReminderService.scheduleReminder catchScheduleExceptions
      SmsReminderService.scheduleReminderBody
    cases hA : isSmsAction step.action
    · simp
    · simp only [Bool.not_true, Bool.false_eq_true, if_false]
      cases hcfg : isSmsConfigured env
      · simp
      · simp only [Bool.not_true, Bool.false_eq_true, if_false]
        cases hR : SmsReminderService.getRecipient step calendarEvent options.smsReminderNumber
        · simp
        · simp only []
          by_cases hverif : (step.action = WorkflowActions.SMS_ATTENDEE ∧
              step.numberVerificationPending = true)
          · simp [hverif]
          · simp only [if_neg hverif]
            cases hC : SmsReminderService.calculateScheduledDate now workflow calendarEvent
            · simp
            · rename_i scheduledDate
              simp only []
              cases hI : SmsReminderService.isImmediateTrigger workflow.trigger
              · simp only [Bool.false_eq_true, if_false]
                cases hce : env.createExn s.nextId
                · simp only [dbCreate, hce, newRecord]
                  intro _
                  exact ⟨_, rfl, rfl, rfl, rfl, rfl, True.intro⟩
                · simp [dbCreate, hce]
              · simp only [if_true]
                unfold SmsReminderService.sendSmsNow SmsReminderService.sendSmsNowBody
                cases hce : env.createExn s.nextId
                · simp only [dbCreate, hce, newRecord]
                  intro _
                  have hCnow : SmsReminderService.calculateScheduledDate now workflow calendarEvent
                      = some now := by
                    unfold SmsReminderService.calculateScheduledDate
                    simp [hI]
                  rw [hC] at hCnow
                  exact ⟨_, rfl, rfl, rfl, hCnow, rfl, True.intro⟩
                · simp [dbCreate, hce]

/-- C2 witness: the amended property at a concrete successful timed email
dispatch. -/
theorem C2_witness :
    (EmailReminderService.scheduleReminder envFix 5 wfBeforeFix stepEmailAttendeeFix evFix
        { emailAttendeeSendToOverride := none, seatReferenceUid := none } stFix).1.success = true ∧
    ∃ rec : ReminderRecord,
      (EmailReminderService.scheduleReminder envFix 5 wfBeforeFix stepEmailAttendeeFix evFix
          { emailAttendeeSendToOverride := none, seatReferenceUid := none } stFix).2.records
        = stFix.records ++ [rec] ∧
      rec.method = .EMAIL ∧ rec.scheduled = true ∧
      EmailReminderService.calculateScheduledDate 5 wfBeforeFix evFix = some rec.scheduledDate ∧
      (EmailReminderService.scheduleReminder envFix 5 wfBeforeFix stepEmailAttendeeFix evFix
          { emailAttendeeSendToOverride := none, seatReferenceUid := none } stFix).1.reminderId
        = some rec.id ∧
      ∃ t : SchedulerTask,
        (EmailReminderService.scheduleReminder envFix 5 wfBeforeFix stepEmailAttendeeFix evFix
            { emailAttendeeSendToOverride := none, seatReferenceUid := none } stFix).2.tasks
          = stFix.tasks ++ [t] ∧
        t.taskType = "sendWorkflowEmails" ∧ t.workflowReminderId = rec.id ∧
        t.scheduledAt = rec.scheduledDate ∧ t.referenceUid = jsStrOpt rec.uuid :=
  ⟨rfl,
    C2_dispatch_amended.1 envFix 5 wfBeforeFix stepEmailAttendeeFix evFix
      { emailAttendeeSendToOverride := none, seatReferenceUid := none } stFix rfl⟩

/-! ## Claim C9 — template substitution round trip

Supporting theory for the global literal replacement scan of
`replaceTemplateVariables`/`replaceSmsVariables`: the scan with fuel equal
to the string length is canonical, a brace-free prefix passes through a
replacement of a brace-opened pattern, a pattern occurrence at the head is
replaced without rescanning the inserted text, and a string without the
pattern is left unchanged. -/

/-- Whether `pat` occurs (as a contiguous sublist) in the scanned text. -/
def occurs (pat : List Char) : List Char → Bool
  | [] => false
  | c :: cs => (decide (pat ≠ []) && pat.isPrefixOf (c :: cs)) || occurs pat cs

/-- The replacement scan with exact fuel. -/
def replaceAllL (pat rep s : List Char) : List Char :=
  replaceFuel pat rep s.length s

/-- Fuel irrelevance: any fuel at least as large as the scanned string's
length produces the same scan result. -/
theorem replaceFuel_fuelIrrel (pat rep : List Char) :
    ∀ (f1 f2 : Nat) (s : List Char), s.length ≤ f1 → s.length ≤ f2 →
      replaceFuel pat rep f1 s = replaceFuel pat rep f2 s := by
  intro f1
  induction f1 with
  | zero =>
      intro f2 s h1 _
      have hs : s = [] := List.length_eq_zero.mp (Nat.le_zero.mp h1)
      subst hs
      cases f2 <;> rfl
  | succ n ih =>
      intro f2 s h1 h2
      cases s with
      | nil => cases f2 <;> rfl
      | cons c cs =>
          cases f2 with
          | zero => simp at h2
          | succ m =>
              simp only [replaceFuel]
              by_cases hc : (pat ≠ [] ∧ pat.isPrefixOf (c :: cs))
              · rw [if_pos hc, if_pos hc]
                have hplen : 0 < pat.length := List.length_pos.mpr hc.1
                simp only [List.length_cons] at h1 h2
                have hd1 : ((c :: cs).drop pat.length).length ≤ n := by
                  simp only [List.length_drop, List.length_cons]
                  omega
                have hd2 : ((c :: cs).drop pat.length).length ≤ m := by
                  simp only [List.length_drop, List.length_cons]
                  omega
                rw [ih m _ hd1 hd2]
              · rw [if_neg hc, if_neg hc]
                simp only [List.length_cons] at h1 h2
                rw [ih m cs (by omega) (by omega)]

/-- Any sufficient fuel computes the canonical scan. -/
theorem replaceFuel_toCanonical (pat rep : List Char) (f : Nat) (s : List Char)
    (h : s.length ≤ f) : replaceFuel pat rep f s = replaceAllL pat rep s :=
  replaceFuel_fuelIrrel pat rep f s.length s h (Nat.le_refl _)

/-- A brace-free prefix passes through the scan for a pattern that opens
with a brace. -/
theorem replaceAllL_append_braceFree (pat rep : List Char)
    (hpat : pat.head? = some '{') :
    ∀ (v rest : List Char), (∀ c ∈ v, c ≠ '{') →
      replaceAllL pat rep (v ++ rest) = v ++ replaceAllL pat rep rest := by
  obtain ⟨pt, rfl⟩ : ∃ pt, pat = '{' :: pt := by
    cases pat with
    | nil => simp at hpat
    | cons c cs =>
        simp only [List.head?] at hpat
        exact ⟨cs, by rw [Option.some.injEq] at hpat; rw [hpat]⟩
  intro v
  induction v with
  | nil => intro rest _; rfl
  | cons c v' ih =>
      intro rest hv
      have hc : c ≠ '{' := hv c (List.mem_cons_self c v')
      have hcond : ¬(('{' :: pt) ≠ [] ∧ ('{' :: pt).isPrefixOf (c :: (v' ++ rest)) = true) := by
        rintro ⟨-, hpre⟩
        simp only [List.isPrefixOf, Bool.and_eq_true, beq_iff_eq] at hpre
        exact hc hpre.1.symm
      show replaceFuel ('{' :: pt) rep (c :: (v' ++ rest)).length (c :: (v' ++ rest)) =
        (c :: v') ++ replaceAllL ('{' :: pt) rep rest
      simp only [List.length_cons, replaceFuel, if_neg hcond, List.cons_append]
      have : replaceFuel ('{' :: pt) rep (v' ++ rest).length (v' ++ rest) =
          v' ++ replaceAllL ('{' :: pt) rep rest :=
        ih rest (fun x hx => hv x (List.mem_cons_of_mem c hx))
      rw [this]

/-- An occurrence of the (nonempty) pattern at the head is replaced and
the scan continues after it without rescanning the inserted text. -/
theorem replaceAllL_head (pat rep rest : List Char) (hne : pat ≠ []) :
    replaceAllL pat rep (pat ++ rest) = rep ++ replaceAllL pat rep rest := by
  obtain ⟨c0, pt, rfl⟩ : ∃ c0 pt, pat = c0 :: pt := by
    cases pat with
    | nil => exact absurd rfl hne
    | cons c cs => exact ⟨c, cs, rfl⟩
  have hcond : ((c0 :: pt) ≠ [] ∧ (c0 :: pt).isPrefixOf ((c0 :: pt) ++ rest) = true) := by
    refine ⟨by simp, ?_⟩
    rw [List.isPrefixOf_iff_prefix]
    exact List.prefix_append (c0 :: pt) rest
  show replaceFuel (c0 :: pt) rep ((c0 :: pt) ++ rest).length ((c0 :: pt) ++ rest) =
    rep ++ replaceAllL (c0 :: pt) rep rest
  rw [show ((c0 :: pt) ++ rest) = c0 :: (pt ++ rest) from rfl] at hcond ⊢
  simp only [List.length_cons, replaceFuel, if_pos hcond]
  have hdrop : (c0 :: (pt ++ rest)).drop (c0 :: pt).length = rest := by
    rw [show (c0 :: (pt ++ rest)) = (c0 :: pt) ++ rest from rfl]
    exact List.drop_left (c0 :: pt) rest
  simp only [List.length_cons] at hdrop
  rw [hdrop, replaceFuel_toCanonical _ _ _ _ (by simp)]

/-- A string without an occurrence of the pattern is left unchanged. -/
theorem replaceFuel_noOccur (pat rep : List Char) :
    ∀ (f : Nat) (s : List Char), occurs pat s = false → replaceFuel pat rep f s = s := by
  intro f
  induction f with
  | zero => intro s _; rfl
  | succ n ih =>
      intro s hocc
      cases s with
      | nil => rfl
      | cons c cs =>
          simp only [occurs, Bool.or_eq_false_iff, Bool.and_eq_false_iff,
            decide_eq_false_iff_not, not_not] at hocc
          have hcond : ¬(pat ≠ [] ∧ pat.isPrefixOf (c :: cs) = true) := by
            rintro ⟨hne, hpre⟩
            rcases hocc.1 with h | h
            · exact hne h
            · rw [hpre] at h; exact Bool.noConfusion h
          simp only [replaceFuel, if_neg hcond]
          rw [ih cs hocc.2]

/-- A pattern that opens with a brace cannot occur in a brace-free
string. -/
theorem occurs_braceFree (pat : List Char) (hpat : pat.head? = some '{') :
    ∀ s : List Char, '{' ∉ s → occurs pat s = false := by
  obtain ⟨pt, rfl⟩ : ∃ pt, pat = '{' :: pt := by
    cases pat with
    | nil => simp at hpat
    | cons c cs =>
        simp only [List.head?] at hpat
        exact ⟨cs, by rw [Option.some.injEq] at hpat; rw [hpat]⟩
  intro s
  induction s with
  | nil => intro _; rfl
  | cons c cs ih =>
      intro hs
      have hc : c ≠ '{' := fun h => hs (h ▸ List.mem_cons_self c cs)
      simp only [occurs, Bool.or_eq_false_iff]
      constructor
      · simp only [List.isPrefixOf, Bool.and_eq_false_iff]
        right
        simp only [Bool.and_eq_false_iff, beq_eq_false_iff_ne, ne_eq]
        left
        exact fun h => hc h.symm
      · exact ih (fun h => hs (List.mem_cons_of_mem c h))

/-- Dollar expansion of a replacement without a dollar character is the
identity. -/
theorem dollarExpandFuel_dollarFree (matched before after : List Char) :
    ∀ (f : Nat) (rep : List Char), '$' ∉ rep →
      dollarExpandFuel matched before after f rep = rep := by
  intro f
  induction f with
  | zero => intro rep _; rfl
  | succ n ih =>
      intro rep h
      cases rep with
      | nil => rfl
      | cons c rest =>
          have hc : c ≠ '$' := fun he => h (he ▸ List.mem_cons_self c rest)
          simp only [dollarExpandFuel, if_neg hc]
          rw [ih rest (fun hm => h (List.mem_cons_of_mem c hm))]

/-- The faithful scan coincides with the plain literal scan exactly when
the replacement contains no dollar character. -/
theorem replaceFuelD_dollarFree (pat rep : List Char) (hrep : '$' ∉ rep) :
    ∀ (f : Nat) (before s : List Char),
      replaceFuelD pat rep f before s = replaceFuel pat rep f s := by
  intro f
  induction f with
  | zero => intro before s; rfl
  | succ n ih =>
      intro before s
      cases s with
      | nil => rfl
      | cons c cs =>
          simp only [replaceFuelD, replaceFuel]
          by_cases hc : (pat ≠ [] ∧ pat.isPrefixOf (c :: cs))
          · rw [if_pos hc, if_pos hc,
              show dollarExpand pat before ((c :: cs).drop pat.length) rep = rep from
                dollarExpandFuel_dollarFree pat before _ rep.length rep hrep,
              ih]
          · rw [if_neg hc, if_neg hc, ih]

/-- The dollar substitution is active in `jsReplaceAll`: `$&` re-inserts
the matched token, the backquote and quote forms insert the subject text
surrounding the match, and `$$` collapses to a single dollar. -/
theorem jsReplaceAll_dollarSubstitution :
    jsReplaceAll "a{X}b" "{X}" "$&" = "a{X}b" ∧
    jsReplaceAll "a{X}b" "{X}" "$$" = "a$b" ∧
    jsReplaceAll "a{X}b" "{X}" "$\x60" = "aab" ∧
    jsReplaceAll "a{X}b" "{X}" "$\x27" = "abb" :=
  ⟨rfl, rfl, rfl, rfl⟩

/-- Concatenation of the variable tokens of a replacement list. -/
def concatTokens : List (String × String) → String
  | [] => ""
  | pr :: rest => pr.1 ++ concatTokens rest

/-- Concatenation of the substituted values of a replacement list. -/
def concatValues : List (String × String) → String
  | [] => ""
  | pr :: rest => pr.2 ++ concatValues rest

/-- No token occurs in the concatenation of the tokens after it (the
condition making the sequential replacement chain clean). -/
def chainNoOccur : List (String × String) → Prop
  | [] => True
  | pr :: rest => occurs pr.1.data (concatTokens rest).data = false ∧ chainNoOccur rest

/-- Brace-free values concatenate to a brace-free string. -/
theorem concatValues_braceFree :
    ∀ prs : List (String × String), (∀ pr ∈ prs, '{' ∉ pr.2.data) →
      '{' ∉ (concatValues prs).data := by
  intro prs
  induction prs with
  | nil =>
      intro _ h
      simp [concatValues] at h
  | cons pr rest ih =>
      intro h hmem
      rw [show concatValues (pr :: rest) = pr.2 ++ concatValues rest from rfl,
        String.data_append, List.mem_append] at hmem
      rcases hmem with hm | hm
      · exact h pr (List.mem_cons_self _ _) hm
      · exact ih (fun q hq => h q (List.mem_cons_of_mem pr hq)) hm

/-- Rendering a template that is a brace-free prefix followed by the
concatenated tokens, against brace-free values, substitutes every token
with its value. -/
theorem applyReplacements_chain :
    ∀ (prs : List (String × String)) (done : String),
      '{' ∉ done.data →
      (∀ pr ∈ prs, '{' ∉ pr.2.data ∧ '$' ∉ pr.2.data ∧ pr.1.data.head? = some '{') →
      chainNoOccur prs →
      applyReplacements (done ++ concatTokens prs) prs = done ++ concatValues prs := by
  intro prs
  induction prs with
  | nil => intro done _ _ _; rfl
  | cons pr rest ih =>
      intro done hdone hall hchain
      obtain ⟨p, v⟩ := pr
      have hv : '{' ∉ v.data := (hall (p, v) (List.mem_cons_self _ _)).1
      have hdollar : '$' ∉ v.data := (hall (p, v) (List.mem_cons_self _ _)).2.1
      have hp : p.data.head? = some '{' := (hall (p, v) (List.mem_cons_self _ _)).2.2
      have hpne : p.data ≠ [] := by
        cases hd : p.data
        · rw [hd] at hp; simp at hp
        · simp
      have hstep : jsReplaceAll (done ++ concatTokens ((p, v) :: rest)) p v =
          (done ++ v) ++ concatTokens rest := by
        apply String.ext
        rw [show (jsReplaceAll (done ++ concatTokens ((p, v) :: rest)) p v).data =
            replaceAllL p.data v.data (done ++ concatTokens ((p, v) :: rest)).data from
          replaceFuelD_dollarFree p.data v.data hdollar _ _ _]
        have hdata : (done ++ concatTokens ((p, v) :: rest)).data =
            done.data ++ (p.data ++ (concatTokens rest).data) := by
          rw [show concatTokens ((p, v) :: rest) = p ++ concatTokens rest from rfl]
          simp [String.data_append]
        rw [hdata,
          replaceAllL_append_braceFree p.data v.data hp done.data _
            (fun c hc he => hdone (he ▸ hc)),
          replaceAllL_head p.data v.data _ hpne,
          show replaceAllL p.data v.data (concatTokens rest).data = (concatTokens rest).data from
            replaceFuel_noOccur p.data v.data _ _ hchain.1]
        simp [String.data_append, List.append_assoc]
      rw [show applyReplacements (done ++ concatTokens ((p, v) :: rest)) ((p, v) :: rest) =
          applyReplacements (jsReplaceAll (done ++ concatTokens ((p, v) :: rest)) p v) rest
          from rfl,
        hstep,
        ih (done ++ v)
          (by rw [String.data_append]
              intro hmem
              rcases List.mem_append.mp hmem with hm | hm
              · exact hdone hm
              · exact hv hm)
          (fun q hq => hall q (List.mem_cons_of_mem _ hq)) hchain.2]
      rw [show concatValues ((p, v) :: rest) = v ++ concatValues rest from rfl]
      rw [String.append_assoc]

/-- A template containing every declared email variable (each of the
twelve tokens once, in declaration order). -/
def emailAllVariablesTemplate : String :=
  "{ATTENDEE_NAME}" ++ "{ORGANIZER_NAME}" ++ "{EVENT_TITLE}" ++ "{EVENT_DATE}" ++
    "{EVENT_TIME}" ++ "{EVENT_END_TIME}" ++ "{EVENT_TIMEZONE}" ++ "{LOCATION}" ++
    "{ADDITIONAL_NOTES}" ++ "{MEETING_URL}" ++ "{CANCEL_URL}" ++ "{RESCHEDULE_URL}"

/-- A template containing every declared SMS variable. -/
def smsAllVariablesTemplate : String :=
  "{ATTENDEE_NAME}" ++ "{ORGANIZER_NAME}" ++ "{EVENT_TITLE}" ++ "{EVENT_DATE}" ++
    "{EVENT_TIME}" ++ "{LOCATION}"

/-- The tokens of the email replacement list concatenate to the
all-variables template, for every event. -/
theorem emailTokens_concat (fmt : Fmt) (ev : ExtendedCalendarEvent) (opts : TemplateOptions) :
    concatTokens (emailReplacements fmt ev opts) = emailAllVariablesTemplate := rfl

/-- The tokens of the SMS replacement list concatenate to the SMS
all-variables template, for every event. -/
theorem smsTokens_concat (fmt : Fmt) (ev : ExtendedCalendarEvent) (locale : Option String) :
    concatTokens (smsReplacements fmt ev locale) = smsAllVariablesTemplate := rfl

/-- Every email replacement token opens with a brace. -/
theorem emailTokens_headBrace (fmt : Fmt) (ev : ExtendedCalendarEvent)
    (opts : TemplateOptions) :
    ∀ pr ∈ emailReplacements fmt ev opts, pr.1.data.head? = some '{' := by
  intro pr hpr
  simp only [emailReplacements, List.mem_cons, List.not_mem_nil, or_false] at hpr
  rcases hpr with rfl | rfl | rfl | rfl | rfl | rfl | rfl | rfl | rfl | rfl | rfl | rfl <;> rfl

/-- Every SMS replacement token opens with a brace. -/
theorem smsTokens_headBrace (fmt : Fmt) (ev : ExtendedCalendarEvent) (locale : Option String) :
    ∀ pr ∈ smsReplacements fmt ev locale, pr.1.data.head? = some '{' := by
  intro pr hpr
  simp only [smsReplacements, List.mem_cons, List.not_mem_nil, or_false] at hpr
  rcases hpr with rfl | rfl | rfl | rfl | rfl | rfl <;> rfl

/-- No email token occurs in the concatenation of the tokens after it. -/
theorem emailChainNoOccur (fmt : Fmt) (ev : ExtendedCalendarEvent) (opts : TemplateOptions) :
    chainNoOccur (emailReplacements fmt ev opts) := by
  simp only [emailReplacements, chainNoOccur, concatTokens]
  exact ⟨by decide, by decide, by decide, by decide, by decide, by decide, by decide,
    by decide, by decide, by decide, by decide, by decide, trivial⟩

/-- No SMS token occurs in the concatenation of the tokens after it. -/
theorem smsChainNoOccur (fmt : Fmt) (ev : ExtendedCalendarEvent) (locale : Option String) :
    chainNoOccur (smsReplacements fmt ev locale) := by
  simp only [smsReplacements, chainNoOccur, concatTokens]
  exact ⟨by decide, by decide, by decide, by decide, by decide, by decide, trivial⟩

/-- An organizer whose display name happens to be the literal text of a
variable token. -/
def orgTokenNameFix : OrganizerInfo :=
  { name := "{ATTENDEE_NAME}", email := "olga@example.com", timeZone := "UTC", locale := "en" }

/-- A fully-populated event whose organizer name is that token text. -/
def evTokenNameFix : ExtendedCalendarEvent :=
  { evFix with organizer := some orgTokenNameFix }

set_option maxRecDepth 40000 in
/-- C9 counterexample: the event is fully populated, the template contains
every declared variable, yet the rendered output still contains the
literal token `{ATTENDEE_NAME}` — the organizer-name value, substituted at
the second pass, re-introduces the token of the first pass, which is never
rescanned. -/
theorem C9_counterexample :
    evTokenNameFix.attendees ≠ [] ∧ evTokenNameFix.organizer.isSome = true ∧
    evTokenNameFix.title ≠ "" ∧ evTokenNameFix.location.isSome = true ∧
    evTokenNameFix.additionalNotes.isSome = true ∧ evTokenNameFix.metadata.isSome = true ∧
    evTokenNameFix.uid.isSome = true ∧
    occurs "{ATTENDEE_NAME}".data
      (replaceTemplateVariables envFix.fmt emailAllVariablesTemplate evTokenNameFix
        { bookerUrl := none, locale := none }).data = true := by
  refine ⟨by decide, rfl, by decide, rfl, rfl, rfl, rfl, by decide⟩

/-- C9 (amended): for every calendar event and formatter whose computed
replacement values contain neither an opening brace nor a dollar character
(a dollar would trigger the ECMAScript substitution of the replacement
string — a value `$&` re-inserts the matched token), rendering the
template that contains every declared variable substitutes each token with
its value (the output is the concatenation of the twelve, resp. six,
values) and leaves no literal declared-variable token in the output — for
the email and the SMS substitution alike; and variables whose data is
missing degrade to the default labels Guest, Organizer, Event, TBD rather
than remaining as tokens. -/
theorem C9_templateRoundTrip_amended :
    (∀ (fmt : Fmt) (ev : ExtendedCalendarEvent) (opts : TemplateOptions),
      (∀ pr ∈ emailReplacements fmt ev opts, '{' ∉ pr.2.data ∧ '$' ∉ pr.2.data) →
      replaceTemplateVariables fmt emailAllVariablesTemplate ev opts =
        concatValues (emailReplacements fmt ev opts) ∧
      ∀ pr ∈ emailReplacements fmt ev opts,
        occurs pr.1.data
          (replaceTemplateVariables fmt emailAllVariablesTemplate ev opts).data = false) ∧
    (∀ (fmt : Fmt) (ev : ExtendedCalendarEvent) (locale : Option String),
      (∀ pr ∈ smsReplacements fmt ev locale, '{' ∉ pr.2.data ∧ '$' ∉ pr.2.data) →
      replaceSmsVariables fmt smsAllVariablesTemplate ev locale =
        concatValues (smsReplacements fmt ev locale) ∧
      ∀ pr ∈ smsReplacements fmt ev locale,
        occurs pr.1.data
          (replaceSmsVariables fmt smsAllVariablesTemplate ev locale).data = false) ∧
    (∀ (fmt : Fmt) (ev : ExtendedCalendarEvent) (opts : TemplateOptions),
      (ev.attendees = [] →
        (emailReplacements fmt ev opts).get? 0 = some ("{ATTENDEE_NAME}", "Guest")) ∧
      (ev.organizer = none →
        (emailReplacements fmt ev opts).get? 1 = some ("{ORGANIZER_NAME}", "Organizer")) ∧
      (ev.title = "" →
        (emailReplacements fmt ev opts).get? 2 = some ("{EVENT_TITLE}", "Event")) ∧
      (ev.location = none → ev.metadata = none →
        (emailReplacements fmt ev opts).get? 7 = some ("{LOCATION}", "TBD"))) := by
  have hempty : ∀ s : String, ("" ++ s : String) = s := by
    intro s
    apply String.ext
    simp [String.data_append]
  refine ⟨?_, ?_, ?_⟩
  · intro fmt ev opts hv
    have hall : ∀ pr ∈ emailReplacements fmt ev opts,
        '{' ∉ pr.2.data ∧ '$' ∉ pr.2.data ∧ pr.1.data.head? = some '{' :=
      fun pr hpr =>
        ⟨(hv pr hpr).1, (hv pr hpr).2, emailTokens_headBrace fmt ev opts pr hpr⟩
    have heq : replaceTemplateVariables fmt emailAllVariablesTemplate ev opts =
        concatValues (emailReplacements fmt ev opts) := by
      show applyReplacements emailAllVariablesTemplate (emailReplacements fmt ev opts) = _
      rw [← emailTokens_concat fmt ev opts, ← hempty (concatTokens (emailReplacements fmt ev opts))]
      rw [applyReplacements_chain (emailReplacements fmt ev opts) "" (by decide) hall
        (emailChainNoOccur fmt ev opts)]
      exact hempty _
    refine ⟨heq, ?_⟩
    intro pr hpr
    rw [heq]
    exact occurs_braceFree pr.1.data (emailTokens_headBrace fmt ev opts pr hpr) _
      (concatValues_braceFree _ (fun q hq => (hv q hq).1))
  · intro fmt ev locale hv
    have hall : ∀ pr ∈ smsReplacements fmt ev locale,
        '{' ∉ pr.2.data ∧ '$' ∉ pr.2.data ∧ pr.1.data.head? = some '{' :=
      fun pr hpr =>
        ⟨(hv pr hpr).1, (hv pr hpr).2, smsTokens_headBrace fmt ev locale pr hpr⟩
    have heq : replaceSmsVariables fmt smsAllVariablesTemplate ev locale =
        concatValues (smsReplacements fmt ev locale) := by
      show applyReplacements smsAllVariablesTemplate (smsReplacements fmt ev locale) = _
      rw [← smsTokens_concat fmt ev locale, ← hempty (concatTokens (smsReplacements fmt ev locale))]
      rw [applyReplacements_chain (smsReplacements fmt ev locale) "" (by decide) hall
        (smsChainNoOccur fmt ev locale)]
      exact hempty _
    refine ⟨heq, ?_⟩
    intro pr hpr
    rw [heq]
    exact occurs_braceFree pr.1.data (smsTokens_headBrace fmt ev locale pr hpr) _
      (concatValues_braceFree _ (fun q hq => (hv q hq).1))
  · intro fmt ev opts
    refine ⟨?_, ?_, ?_, ?_⟩
    · intro h
      simp [emailReplacements, h, jsOrElse]
    · intro h
      simp [emailReplacements, h, jsOrElse]
    · intro h
      simp [emailReplacements, h, jsOrElse]
    · intro h1 h2
      simp [emailReplacements, h1, h2, jsOrElse]

/-- C9 witness: the amended round trip exercised at a concrete fully
populated event with concrete formatters. -/
theorem C9_witness :
    replaceTemplateVariables envFix.fmt emailAllVariablesTemplate evFix
        { bookerUrl := none, locale := none } =
      concatValues (emailReplacements envFix.fmt evFix { bookerUrl := none, locale := none }) ∧
    ∀ pr ∈ emailReplacements envFix.fmt evFix { bookerUrl := none, locale := none },
      occurs pr.1.data
        (replaceTemplateVariables envFix.fmt emailAllVariablesTemplate evFix
          { bookerUrl := none, locale := none }).data = false :=
  C9_templateRoundTrip_amended.1 envFix.fmt evFix { bookerUrl := none, locale := none }
    (by decide)
